import Mathlib

/-!
# Interactive Dengue Disease Awareness Visualization: state model

A shallow embedding of the update/state logic of `src/main.cpp`.

Modelling conventions.

* The process-wide globals of `main.cpp` are the fields of one `State` record; every
  function that mutates globals becomes a function `State → State`.
* `float` values are modelled by exact rationals (`ℚ`): the properties below concern
  control flow, thresholds and bounds, not rounding.
* `int` values are modelled by `Int`, `size_t`/indices by `Nat`; C's `%` on `int` is
  `Int.tmod` (truncated remainder).
* `std::vector` is `List`; `std::map::find` is a function into `Option`.
* `rand()` is an oracle: a stream `rand : Nat → Nat` of raw draws together with a cursor
  counting the calls made so far; a draw is reduced into `0..RAND_MAX`.
* `sqrt` is a parameter `sqrtf : ℚ → ℚ`; no property below depends on what it returns.
* `exit(0)` is modelled by `key` returning `none`.
* Drawing calls (`glut*`, `gl*`) have no effect on the modelled state and are left out.
-/

namespace Dengue

/-! ## Data model -/

/-- `struct Person` (main.cpp:53-60). -/
structure Person where
  x : ℚ
  y : ℚ
  scale : ℚ
  isMoving : Bool
  moveDirection : ℚ
  animationTime : ℚ
  type : Int
  deriving DecidableEq

/-- `struct InteractiveElement` (main.cpp:110-116). -/
structure InteractiveElement where
  x : ℚ
  y : ℚ
  width : ℚ
  height : ℚ
  scene : Int
  isHovered : Bool
  isClicked : Bool
  deriving DecidableEq

/-- `struct Mosquito` (main.cpp:121-126). -/
structure Mosquito where
  x : ℚ
  y : ℚ
  speedX : ℚ
  speedY : ℚ
  wingAngle : ℚ
  alive : Bool
  deriving DecidableEq

/-- `struct InfoMessage` (main.cpp:132-137). -/
structure InfoMessage where
  text : String
  displayTime : ℚ
  fadeTime : ℚ
  active : Bool
  deriving DecidableEq

/-- The globals of `main.cpp` (lines 20-50, 62, 118, 128, 139-140, 789). -/
structure State where
  currentScene : Int
  waterLevel : ℚ
  waterRising : Bool
  selectedItem : Int
  isAnimating : Bool
  isDayMode : Bool
  showAmbulance : Bool
  showEmergency : Bool
  showInfo : Bool
  showOptions : Bool
  showUpdates : Bool
  killedMosquitoes : Int
  rippleTime : ℚ
  mosquitoLifeCycle : ℚ
  pulseEffect : ℚ
  rainEffect : ℚ
  isRaining : Bool
  mosquitoSpawnTimer : ℚ
  mosquitoDeathTimer : ℚ
  mosquitoDeathAnimation : Bool
  killEffectTime : ℚ
  mosquitoToKill : Int
  isKillingMosquito : Bool
  people : List Person
  interactiveElements : List InteractiveElement
  mosquitoes : List Mosquito
  infoMessages : List InfoMessage
  messageTimer : ℚ
  sceneTimer : ℚ
  deriving DecidableEq

/-! ## Constants -/

/-- `TOTAL_SCENES` (main.cpp:21). -/
def TOTAL_SCENES : Int := 9

/-- `mosquitoSpawnInterval` (main.cpp:41); a global that is never assigned. -/
def mosquitoSpawnInterval : ℚ := 2

/-- `mosquitoSpeed` (main.cpp:42); a global that is never assigned. -/
def mosquitoSpeed : ℚ := 0.02

/-- `MAX_MOSQUITOES` (main.cpp:63). -/
def MAX_MOSQUITOES : Nat := 20

/-- `MOSQUITO_COUNT` (main.cpp:129). -/
def MOSQUITO_COUNT : Nat := 10

/-- `MESSAGE_DURATION` (main.cpp:141). -/
def MESSAGE_DURATION : ℚ := 5

/-- `SCENE_DURATION` (main.cpp:790). -/
def SCENE_DURATION : ℚ := 15

/-- `RAND_MAX` of the C library (the glibc value); only `0 < RAND_MAX` is ever used. -/
def RAND_MAX : Nat := 2147483647

/-- `SCENE_INFO` (main.cpp:144-199) with `std::map::find` as the lookup. -/
def SCENE_INFO (scene : Int) : Option (List String) :=
  if scene = 0 then some [
    "Mosquitoes go through four life stages: egg, larva, pupa, and adult",
    "Female Aedes aegypti mosquitoes lay eggs in stagnant water",
    "After hatching, they become larvae, then pupae, and finally adults",
    "This scene shows how unchecked water sources contribute to breeding"]
  else if scene = 1 then some [
    "A clean environment is the first defense against dengue",
    "Remove stagnant water from plant pots, buckets, old tires, and drains",
    "Proper garbage disposal and cleaning roof gutters helps",
    "Using mosquito nets reduces breeding grounds for mosquitoes"]
  else if scene = 2 then some [
    "Dengue Fighters are everyday heroes in our community",
    "They include community workers, health officials, and citizens",
    "They raise awareness and inspect areas for breeding grounds",
    "You can be a Dengue Fighter by inspecting your surroundings"]
  else if scene = 3 then some [
    "Stagnant water is a mosquito\x27s favorite breeding place",
    "Common spots: flowerpots, unused containers, air coolers",
    "Empty and clean these spots weekly",
    "Even a bottle cap full of water is enough for breeding"]
  else if scene = 4 then some [
    "Regular home inspections help detect breeding areas early",
    "Check bathrooms, balconies, and rooftop tanks",
    "Don\x27t forget refrigerator trays and water containers",
    "Do a weekly \x2710-Minute Check\x27 to eliminate standing water"]
  else if scene = 5 then some [
    "Common symptoms: High fever (up to 104ï¿½F)",
    "Severe headache, pain behind eyes, muscle and joint pain",
    "Nausea, vomiting, and skin rash may occur",
    "Bleeding (gums, nose) in severe cases - Seek help immediately"]
  else if scene = 6 then some [
    "Prevent dengue by using repellents and mosquito nets",
    "Wear long-sleeved clothes and install window screens",
    "Cover water containers and apply larvicides",
    "Raise community awareness about prevention"]
  else if scene = 7 then some [
    "No specific cure, but early diagnosis saves lives",
    "Treatment includes rest and plenty of fluids",
    "Use paracetamol for fever (avoid aspirin/NSAIDs)",
    "Hospital care needed for severe dengue - Don\x27t self-medicate"]
  else if scene = 8 then some [
    "Dengue cases are rising globally due to urbanization",
    "Climate change increases mosquito breeding areas",
    "Urban areas are at higher risk of outbreaks",
    "Stay informed through health department updates"]
  else none

/-! ## Random source -/

/-- The value returned by the `k`-th call of `rand()`: an integer in `0..RAND_MAX`. -/
def randInt (rand : Nat → Nat) (k : Nat) : Nat := rand k % (RAND_MAX + 1)

/-- The expression `static_cast<float>(rand()) / RAND_MAX` for the `k`-th call. -/
def randUnit (rand : Nat → Nat) (k : Nat) : ℚ := (randInt rand k : ℚ) / (RAND_MAX : ℚ)

/-! ## Initialisation (main.cpp:263-321, 1052-1078) -/

/-- `addInteractiveElement` (main.cpp:263-266). -/
def addInteractiveElement (x y width height : ℚ) (scene : Int) (s : State) : State :=
  { s with interactiveElements :=
      s.interactiveElements ++ [⟨x, y, width, height, scene, false, false⟩] }

/-- `initInteractiveElements` (main.cpp:268-273). -/
def initInteractiveElements (s : State) : State :=
  addInteractiveElement 3 1 1 1 1
    (addInteractiveElement 0 0 1 1 1
      (addInteractiveElement (-3) 1 1 1 1 s))

/-- The loop body of the `else` branch of `initMosquitoes` (main.cpp:281-287): one random
mosquito built from six consecutive draws starting at cursor `k`. -/
def randomMosquito (rand : Nat → Nat) (k : Nat) : Mosquito :=
  let x : ℚ := -4 + randUnit rand k * 8
  let y : ℚ := -2 + randUnit rand (k + 1) * 6
  let speedX : ℚ := 0.01 + randUnit rand (k + 2) * 0.03
  let speedY : ℚ := 0.01 + randUnit rand (k + 3) * 0.03
  let speedX := if randInt rand (k + 4) % 2 ≠ 0 then -speedX else speedX
  let speedY := if randInt rand (k + 5) % 2 ≠ 0 then -speedY else speedY
  ⟨x, y, speedX, speedY, 0, true⟩

/-- The `for` loop of `initMosquitoes` (main.cpp:280-288): `n` iterations remaining. -/
def initMosquitoesLoop (rand : Nat → Nat) : Nat → Nat → List Mosquito → List Mosquito × Nat
  | 0, k, acc => (acc, k)
  | n + 1, k, acc => initMosquitoesLoop rand n (k + 6) (acc ++ [randomMosquito rand k])

/-- `initMosquitoes` (main.cpp:275-290); returns the new state and the advanced cursor. -/
def initMosquitoes (rand : Nat → Nat) (k : Nat) (s : State) : State × Nat :=
  if s.currentScene = 0 then
    ({ s with mosquitoes := [⟨-2, 2, 0.02, -0.01, 0, true⟩] }, k)
  else
    let r := initMosquitoesLoop rand MOSQUITO_COUNT k []
    ({ s with mosquitoes := r.1 }, r.2)

/-- The assignment `infoMessages[i].active = b` for an index inside the pool. -/
def setActive : List InfoMessage → Nat → Bool → List InfoMessage
  | [], _, _ => []
  | m :: ms, 0, b => { m with active := b } :: ms
  | m :: ms, i + 1, b => m :: setActive ms i b

/-- The pool that `initInfoMessages` (main.cpp:293-303) builds for a scene index: empty when
`SCENE_INFO.find` fails, else one inactive message per text of the table entry, with the first
one activated when the pool is not empty. -/
def scenePool (scene : Int) : List InfoMessage :=
  match SCENE_INFO scene with
  | some messages =>
    let pool : List InfoMessage := messages.map (fun msg => ⟨msg, 0, 0, false⟩)
    if pool.isEmpty then pool else setActive pool 0 true
  | none => []

/-- `initInfoMessages` (main.cpp:292-304). -/
def initInfoMessages (s : State) : State :=
  { s with infoMessages := scenePool s.currentScene }

/-- `initPeople` (main.cpp:1052-1078). -/
def initPeople (s : State) : State :=
  { s with people :=
      (List.range 3).map (fun i => (⟨-3 + (i : ℚ) * 3, 0, 1, true, 1, 0, 0⟩ : Person)) ++
      (List.range 2).map (fun i => (⟨-2 + (i : ℚ) * 4, -1, 1, true, -1, 0, 1⟩ : Person)) ++
      (List.range 2).map (fun i => (⟨-3 + (i : ℚ) * 6, 0, 1, true, 1, 0, 2⟩ : Person)) ++
      (List.range 3).map (fun i => (⟨-2 + (i : ℚ) * 2, 0, 1, false, 0, 0, 3⟩ : Person)) }

/-- The values of the globals after static initialisation (main.cpp:20-50, 140, 789). -/
def staticInit : State where
  currentScene := 0
  waterLevel := 0
  waterRising := true
  selectedItem := -1
  isAnimating := true
  isDayMode := true
  showAmbulance := true
  showEmergency := true
  showInfo := true
  showOptions := false
  showUpdates := false
  killedMosquitoes := 0
  rippleTime := 0
  mosquitoLifeCycle := 0
  pulseEffect := 0
  rainEffect := 0
  isRaining := false
  mosquitoSpawnTimer := 0
  mosquitoDeathTimer := 0
  mosquitoDeathAnimation := false
  killEffectTime := 0
  mosquitoToKill := -1
  isKillingMosquito := false
  people := []
  interactiveElements := []
  mosquitoes := []
  infoMessages := []
  messageTimer := 0
  sceneTimer := 0

/-- `startAutomaticDisplay` (main.cpp:306-321). -/
def startAutomaticDisplay (rand : Nat → Nat) (s : State) : State :=
  let s1 := initInfoMessages s
  let s2 := (initMosquitoes rand 0 s1).1
  let s3 := initInteractiveElements s2
  let s4 := initPeople s3
  { s4 with currentScene := 0, isAnimating := true, showInfo := true,
            showAmbulance := true, showEmergency := true }

/-- The state in which `glutMainLoop` is entered (main.cpp:1300-1326). -/
def startup (rand : Nat → Nat) : State := startAutomaticDisplay rand staticInit

/-! ## Hit testing (main.cpp:324-327) -/

/-- `isPointInside` (main.cpp:324-327). -/
def isPointInside (x y : ℚ) (element : InteractiveElement) : Bool :=
  decide (x ≥ element.x - element.width / 2) && decide (x ≤ element.x + element.width / 2) &&
  decide (y ≥ element.y - element.height / 2) && decide (y ≤ element.y + element.height / 2)

/-! ## Mosquito pool update (main.cpp:677-735) -/

/-- The mosquito pushed by the spawn step (main.cpp:683-687), built from four consecutive
draws starting at cursor `k`. -/
def spawnMosquito (rand : Nat → Nat) (k : Nat) : Mosquito :=
  let x : ℚ := -4.5 + randUnit rand k * 9
  let y : ℚ := -2.5 + randUnit rand (k + 1) * 7
  let speedX : ℚ := (randUnit rand (k + 2) - 0.5) * mosquitoSpeed
  let speedY : ℚ := (randUnit rand (k + 3) - 0.5) * mosquitoSpeed
  ⟨x, y, speedX, speedY, 0, true⟩

/-- The body of the per-mosquito loop (main.cpp:691-720) for one mosquito; a live mosquito
consumes two draws. -/
def moveMosquito (sqrtf : ℚ → ℚ) (rand : Nat → Nat) (k : Nat) (m : Mosquito) : Mosquito × Nat :=
  if !m.alive then (m, k)
  else
    -- Update position with smooth movement
    let x1 := m.x + m.speedX
    let y1 := m.y + m.speedY
    let wingAngle := m.wingAngle + 0.1
    -- Bounce off boundaries with smooth deceleration
    let bounceX := decide (x1 < -4.5) || decide (x1 > 4.5)
    let speedX1 := if bounceX then -m.speedX * 0.95 else m.speedX
    let x2 := if bounceX then (if x1 < -4.5 then -4.5 else 4.5) else x1
    let bounceY := decide (y1 < -2.5) || decide (y1 > 4.5)
    let speedY1 := if bounceY then -m.speedY * 0.95 else m.speedY
    let y2 := if bounceY then (if y1 < -2.5 then -2.5 else 4.5) else y1
    -- Add slight random movement
    let speedX2 := speedX1 + (randUnit rand k - 0.5) * 0.001
    let speedY2 := speedY1 + (randUnit rand (k + 1) - 0.5) * 0.001
    -- Limit maximum speed
    let maxSpeed := mosquitoSpeed * 1.5
    let currentSpeed := sqrtf (speedX2 * speedX2 + speedY2 * speedY2)
    let limit := decide (currentSpeed > maxSpeed)
    let speedX3 := if limit then (speedX2 / currentSpeed) * maxSpeed else speedX2
    let speedY3 := if limit then (speedY2 / currentSpeed) * maxSpeed else speedY2
    ({ m with x := x2, y := y2, speedX := speedX3, speedY := speedY3, wingAngle := wingAngle },
      k + 2)

/-- The loop `for(auto& m : mosquitoes)` of `updateMosquitoes` (main.cpp:691-720). -/
def moveAll (sqrtf : ℚ → ℚ) (rand : Nat → Nat) : Nat → List Mosquito → List Mosquito × Nat
  | k, [] => ([], k)
  | k, m :: ms =>
    let r := moveMosquito sqrtf rand k m
    let rs := moveAll sqrtf rand r.2 ms
    (r.1 :: rs.1, rs.2)

/-- The spawn condition of `updateMosquitoes` (main.cpp:678, 681), read on the state in which
the function is entered: the incremented spawn timer has reached the interval and the pool is
below `MAX_MOSQUITOES`. -/
def spawnDue (s : State) : Bool :=
  decide (s.mosquitoSpawnTimer + 0.016 ≥ mosquitoSpawnInterval) &&
    decide (s.mosquitoes.length < MAX_MOSQUITOES)

/-- `updateMosquitoes` (main.cpp:677-735); returns the new state and the advanced cursor. -/
def updateMosquitoes (sqrtf : ℚ → ℚ) (rand : Nat → Nat) (k : Nat) (s : State) : State × Nat :=
  let timer := s.mosquitoSpawnTimer + 0.016
  -- Spawn new mosquitoes if below maximum
  let spawn := spawnDue s
  let timer1 := if spawn then 0 else timer
  let pool1 := if spawn then s.mosquitoes ++ [spawnMosquito rand k] else s.mosquitoes
  let k1 := if spawn then k + 4 else k
  -- Update existing mosquitoes
  let moved := moveAll sqrtf rand k1 pool1
  let s1 := { s with mosquitoSpawnTimer := timer1, mosquitoes := moved.1 }
  -- Remove dead mosquitoes after animation
  if s1.mosquitoDeathAnimation then
    let deathTimer := s1.mosquitoDeathTimer + 0.016
    if deathTimer ≥ 1 then
      ({ s1 with mosquitoDeathAnimation := false, mosquitoDeathTimer := 0,
                 mosquitoes := s1.mosquitoes.filter (fun m => m.alive) }, moved.2)
    else
      ({ s1 with mosquitoDeathTimer := deathTimer }, moved.2)
  else
    (s1, moved.2)

/-! ## Message rotation (main.cpp:744-762) -/

/-- The loop `for(size_t i = 0; i < infoMessages.size(); ++i)` of `updateInfoMessages`
(main.cpp:749-760), entered at index `i` with `fuel` iterations allowed. -/
def rotateLoop (msgs : List InfoMessage) : Nat → Nat → List InfoMessage
  | _, 0 => msgs
  | i, fuel + 1 =>
    if i < msgs.length then
      if (msgs.map (fun m => m.active)).getD i false then
        let msgs1 := setActive msgs i false
        -- Activate next message
        if i + 1 < msgs1.length then setActive msgs1 (i + 1) true
        else setActive msgs1 0 true
      else rotateLoop msgs (i + 1) fuel
    else msgs

/-- `updateInfoMessages` (main.cpp:744-762); the loop runs at most `size()` iterations. -/
def updateInfoMessages (deltaTime : ℚ) (s : State) : State :=
  let timer := s.messageTimer + deltaTime
  if timer ≥ MESSAGE_DURATION then
    { s with messageTimer := 0,
             infoMessages := rotateLoop s.infoMessages 0 s.infoMessages.length }
  else
    { s with messageTimer := timer }

/-! ## Scene transition (main.cpp:789-799) -/

/-- `updateSceneTransition` (main.cpp:792-799). -/
def updateSceneTransition (deltaTime : ℚ) (s : State) : State :=
  let timer := s.sceneTimer + deltaTime
  if timer ≥ SCENE_DURATION then
    initInfoMessages
      { s with sceneTimer := 0, currentScene := Int.tmod (s.currentScene + 1) TOTAL_SCENES }
  else
    { s with sceneTimer := timer }

/-! ## Per-frame update (main.cpp:934-979) -/

/-- The assignment `mosquitoes[i].alive = b` for an index inside the pool. -/
def setAlive : List Mosquito → Nat → Bool → List Mosquito
  | [], _, _ => []
  | m :: ms, 0, b => { m with alive := b } :: ms
  | m :: ms, i + 1, b => m :: setAlive ms i b

/-- The statement `mosquitoes[mosquitoToKill].alive = false` under its bounds check
(main.cpp:957-959). -/
def markKilled (mosquitoToKill : Int) (pool : List Mosquito) : List Mosquito :=
  if mosquitoToKill ≥ 0 ∧ mosquitoToKill.toNat < pool.length then
    setAlive pool mosquitoToKill.toNat false
  else pool

/-- The block "Update water level" of `updateAnimations` (main.cpp:942-949). -/
def updateWaterLevel (deltaTime : ℚ) (s : State) : State :=
  if s.waterRising then
    let w := s.waterLevel + 0.01 * deltaTime
    { s with waterLevel := w, waterRising := if w > 1 then false else s.waterRising }
  else
    let w := s.waterLevel - 0.01 * deltaTime
    { s with waterLevel := w, waterRising := if w < 0 then true else s.waterRising }

/-- The block "Update kill effect" of `updateAnimations` (main.cpp:951-962). -/
def updateKillEffect (deltaTime : ℚ) (s : State) : State :=
  if s.isKillingMosquito then
    let t := s.killEffectTime + deltaTime * 2
    if t > 1 then
      { s with isKillingMosquito := false, killEffectTime := 0,
               mosquitoes := markKilled s.mosquitoToKill s.mosquitoes,
               mosquitoToKill := -1 }
    else { s with killEffectTime := t }
  else s

/-- The block "Update new animations" and the random rain toggle of `updateAnimations`
(main.cpp:964-978); the rain toggle reads the draw at cursor `k`. -/
def updateEffects (rand : Nat → Nat) (k : Nat) (deltaTime : ℚ) (s : State) : State :=
  let ripple := s.rippleTime + deltaTime
  let lifeCycle := s.mosquitoLifeCycle + 0.1 * deltaTime
  let pulse := s.pulseEffect + 0.5 * deltaTime
  let rain := s.rainEffect + 0.2 * deltaTime
  { s with
      rippleTime := if ripple > 2 then 0 else ripple,
      mosquitoLifeCycle := if lifeCycle > 1 then 0 else lifeCycle,
      pulseEffect := if pulse > 1 then 0 else pulse,
      rainEffect := if rain > 2 then 0 else rain,
      -- Randomly toggle rain
      isRaining := if randInt rand k % 1000 < 1 then !s.isRaining else s.isRaining }

/-- `updateAnimations` (main.cpp:934-979): the three update calls followed by the three
blocks above, in source order. The stream `rand` holds the draws made by this call, in call
order. -/
def updateAnimations (sqrtf : ℚ → ℚ) (rand : Nat → Nat) (deltaTime : ℚ) (s : State) : State :=
  if !s.isAnimating then s
  else
    -- Update existing animations
    let r := updateMosquitoes sqrtf rand 0 s
    let s1 := updateInfoMessages deltaTime r.1
    let s2 := updateSceneTransition deltaTime s1
    let s3 := updateWaterLevel deltaTime s2
    let s4 := updateKillEffect deltaTime s3
    updateEffects rand r.2 deltaTime s4

/-! ## Input callbacks (main.cpp:1210-1297) -/

/-- The index at which a loop `for(i = start; i < v.size(); i++) if (p(v[i])) { ...; break; }`
enters its body, if it does; the list is the part of `v` from `start` on. -/
def firstFrom {α : Type} (p : α → Bool) : List α → Nat → Option Nat
  | [], _ => none
  | a :: rest, i => if p a then some i else firstFrom p rest (i + 1)

/-- The keyboard callback `key` (main.cpp:1210-1268); `none` is `exit(0)`. -/
def key (key : Char) (x y : Int) (s : State) : Option State :=
  let _ := x
  let _ := y
  match key with
  | '1' | '2' | '3' | '4' | '5' | '6' | '7' | '8' | '9' =>
    some { s with currentScene := (key.toNat : Int) - ('1'.toNat : Int) }
  | 'm' | 'M' => some { s with isAnimating := !s.isAnimating }
  | 'n' | 'N' => some { s with isDayMode := !s.isDayMode }
  | 'd' | 'D' =>
    if !s.isKillingMosquito then
      -- Find next alive mosquito
      match firstFrom (fun m => m.alive) s.mosquitoes 0 with
      | some i =>
        some { s with mosquitoToKill := (i : Int), isKillingMosquito := true,
                      killEffectTime := 0, killedMosquitoes := s.killedMosquitoes + 1 }
      | none => some s
    else some s
  | 'a' | 'A' => some { s with showAmbulance := !s.showAmbulance }
  | 'e' | 'E' => some { s with showEmergency := !s.showEmergency }
  | 'i' | 'I' => some { s with showInfo := !s.showInfo }
  | 'o' | 'O' => some { s with showOptions := !s.showOptions }
  | 'u' | 'U' => some { s with showUpdates := !s.showUpdates }
  | '\x1b' => none
  | _ => some s

/-- `GLUT_LEFT_BUTTON` of the GLUT header. -/
def GLUT_LEFT_BUTTON : Int := 0

/-- `GLUT_DOWN` of the GLUT header. -/
def GLUT_DOWN : Int := 0

/-- The mouse callback `mouse` (main.cpp:1270-1285); `width` and `height` are the values of
`glutGet(GLUT_WINDOW_WIDTH)` and `glutGet(GLUT_WINDOW_HEIGHT)`. -/
def mouse (button state x y : Int) (width height : Int) (s : State) : State :=
  -- Convert window coordinates to OpenGL coordinates
  let glX : ℚ := ((x : ℚ) / (width : ℚ)) * 10 - 5
  let glY : ℚ := 5 - ((y : ℚ) / (height : ℚ)) * 10
  if button = GLUT_LEFT_BUTTON ∧ state = GLUT_DOWN then
    match firstFrom (isPointInside glX glY) s.interactiveElements 0 with
    | some i => { s with selectedItem := (i : Int) }
    | none => s
  else s

/-- The motion callback `motion` (main.cpp:1287-1297). -/
def motion (x y : Int) (width height : Int) (s : State) : State :=
  let glX : ℚ := ((x : ℚ) / (width : ℚ)) * 10 - 5
  let glY : ℚ := 5 - ((y : ℚ) / (height : ℚ)) * 10
  { s with interactiveElements :=
      s.interactiveElements.map (fun element =>
        { element with isHovered := isPointInside glX glY element }) }

/-! ## Reachable states -/

/-- The states the program can be in between two callbacks: the startup state, closed under
the keyboard, mouse and motion callbacks and under the per-frame update that `display`
performs with the non-negative time delta of the GLUT clock. -/
inductive Reachable (sqrtf : ℚ → ℚ) : State → Prop
  | start (rand : Nat → Nat) : Reachable sqrtf (startup rand)
  | key (c : Char) (x y : Int) (s s' : State) :
      Reachable sqrtf s → key c x y s = some s' → Reachable sqrtf s'
  | mouse (button state x y width height : Int) (s : State) :
      Reachable sqrtf s → Reachable sqrtf (mouse button state x y width height s)
  | motion (x y width height : Int) (s : State) :
      Reachable sqrtf s → Reachable sqrtf (motion x y width height s)
  | display (rand : Nat → Nat) (deltaTime : ℚ) (s : State) :
      Reachable sqrtf s → 0 ≤ deltaTime →
      Reachable sqrtf (updateAnimations sqrtf rand deltaTime s)

/-! ## Derived observations on the pools -/

/-- The `alive` flags of a mosquito pool, in pool order. -/
def aliveFlags (pool : List Mosquito) : List Bool := pool.map (fun m => m.alive)

/-- The `active` flags of a pool, in pool order. -/
def activeFlags (msgs : List InfoMessage) : List Bool := msgs.map (fun m => m.active)

/-- The number of active messages of a pool. -/
def activeCount (msgs : List InfoMessage) : Nat := (activeFlags msgs).count true

/-- Index `i` is inside the pool and is its only active message. -/
def OnlyActiveAt (msgs : List InfoMessage) (i : Nat) : Prop :=
  i < msgs.length ∧
    ∀ j, j < msgs.length → ((activeFlags msgs).getD j false = true ↔ j = i)

instance (msgs : List InfoMessage) (i : Nat) : Decidable (OnlyActiveAt msgs i) := by
  unfold OnlyActiveAt
  infer_instance

/-! ## Concrete inputs used to exercise the statements -/

/-- A constant stream of draws: every `rand()` call returns `0`. -/
def zeroRand : Nat → Nat := fun _ => 0

/-- A rational approximation of the square root (six decimal digits), standing in for `sqrt`
when the model is evaluated. -/
def sqrtApprox (q : ℚ) : ℚ :=
  (Nat.sqrt (q.num.toNat * 1000000000000 / q.den) : ℚ) / 1000000

/-- The startup state for the constant stream of draws. -/
def startState : State := startup zeroRand

/-- The startup state moved to the last scene with the scene timer one second short of
the scene duration. -/
def lastSceneState : State := { startState with currentScene := 8, sceneTimer := 14 }

/-- The startup state with a kill animation in flight on mosquito 0. -/
def killingState : State :=
  { startState with isKillingMosquito := true, mosquitoToKill := 0, killedMosquitoes := 1 }

/-- The startup state with the water at its upper bound (and still rising). -/
def fullWaterState : State := { startState with waterLevel := 1 }

/-- The startup state with the spawn timer one tick short of the spawn interval. -/
def spawnReadyState : State := { startState with mosquitoSpawnTimer := 1.99 }

/-- The startup state with its only mosquito already marked dead. -/
def allDeadState : State :=
  { startState with mosquitoes := [⟨-2, 2, 0.02, -0.01, 0, false⟩] }

/-- The viewport bounds `[-4.5, 4.5] × [-2.5, 4.5]` on a mosquito position. -/
def InBounds (m : Mosquito) : Prop :=
  -4.5 ≤ m.x ∧ m.x ≤ 4.5 ∧ -2.5 ≤ m.y ∧ m.y ≤ 4.5

instance (m : Mosquito) : Decidable (InBounds m) := by
  unfold InBounds
  infer_instance

/-- A constant stream of draws at the middle of the range: every `rand()` call returns
`1073741823`, so `rand() / RAND_MAX` is just below one half. -/
def halfRand : Nat → Nat := fun _ => 1073741823

/-- The scene controller's part of the state: scene index, message pool, message timer and
scene timer. -/
def sceneView (s : State) : Int × List InfoMessage × ℚ × ℚ :=
  (s.currentScene, s.infoMessages, s.messageTimer, s.sceneTimer)

/-- The startup state with both the message timer and the scene timer within one second of
firing. -/
def bothTimersState : State := { startState with sceneTimer := 14, messageTimer := 4.5 }

/-- The startup state with animation disabled. -/
def pausedState : State := { startState with isAnimating := false }

/-- The first interactive element of the startup list: the water container at `(-3, 1)`,
one unit wide and high. -/
def waterContainer : InteractiveElement := ⟨-3, 1, 1, 1, 1, false, false⟩

/-- The effect scalars and the raining flag: ripple time, life-cycle phase, pulse, rain
phase, raining. -/
def effectView (s : State) : ℚ × ℚ × ℚ × ℚ × Bool :=
  (s.rippleTime, s.mosquitoLifeCycle, s.pulseEffect, s.rainEffect, s.isRaining)

/-- The part of the state that only `updateMosquitoes` and the animation toggle write: the
death-animation flag and timer, the spawn timer and the animation flag. -/
def poolView (s : State) : Bool × ℚ × ℚ × Bool :=
  (s.mosquitoDeathAnimation, s.mosquitoDeathTimer, s.mosquitoSpawnTimer, s.isAnimating)

/-- Between two lists of `alive` flags: no position is lost and every position that was
dead is still dead. -/
def DeadKept (old new : List Bool) : Prop :=
  old.length ≤ new.length ∧
    ∀ j, j < old.length → old.getD j false = false → new.getD j false = false

/-- The state after `n` consecutive `display` frames with the same `deltaTime` and no input
in between; frame `j` (counted from 0) makes the draws `rands j`. -/
def runFrames (sqrtf : ℚ → ℚ) (rands : Nat → Nat → Nat) (deltaTime : ℚ) : Nat → State → State
  | 0, s => s
  | n + 1, s => updateAnimations sqrtf (rands n) deltaTime (runFrames sqrtf rands deltaTime n s)

/-- The number of mosquitoes of a pool that are marked dead (`alive == false`). -/
def deadCount (pool : List Mosquito) : Nat := (aliveFlags pool).count false

/-- The kill bookkeeping: the dead mosquitoes of the pool, plus one while a kill animation
is in flight, are the kills counted so far; and while a kill animation is in flight
`mosquitoToKill` is an index of the pool whose mosquito is alive. -/
def KillInvariant (s : State) : Prop :=
  ((deadCount s.mosquitoes : Nat) : Int) + (if s.isKillingMosquito then 1 else 0)
      = s.killedMosquitoes ∧
  (s.isKillingMosquito = true →
    0 ≤ s.mosquitoToKill ∧ s.mosquitoToKill.toNat < s.mosquitoes.length ∧
    (aliveFlags s.mosquitoes).getD s.mosquitoToKill.toNat false = true)

/-! ## Scene controller -/

/-- C1: for every state and every `deltaTime`, `updateSceneTransition` adds `deltaTime` to
`sceneTimer`; when the sum is at least 15 it sets `sceneTimer` to 0 and `currentScene` to
`(currentScene + 1) % 9` (C's `%`, which for a scene index `≥ 0` is the mathematical
remainder, so scene 8 advances to scene 0); otherwise `currentScene` is unchanged and
`sceneTimer` keeps the sum. -/
theorem updateSceneTransition_spec (deltaTime : ℚ) (s : State) :
    (s.sceneTimer + deltaTime ≥ 15 →
      (updateSceneTransition deltaTime s).sceneTimer = 0 ∧
      (updateSceneTransition deltaTime s).currentScene = Int.tmod (s.currentScene + 1) 9 ∧
      (0 ≤ s.currentScene →
        (updateSceneTransition deltaTime s).currentScene = (s.currentScene + 1) % 9) ∧
      (s.currentScene = 8 → (updateSceneTransition deltaTime s).currentScene = 0)) ∧
    (¬ s.sceneTimer + deltaTime ≥ 15 →
      (updateSceneTransition deltaTime s).currentScene = s.currentScene ∧
      (updateSceneTransition deltaTime s).sceneTimer = s.sceneTimer + deltaTime) := by
  constructor
  · intro h
    have hs : (updateSceneTransition deltaTime s).sceneTimer = 0 ∧
        (updateSceneTransition deltaTime s).currentScene
          = Int.tmod (s.currentScene + 1) 9 := by
      have h15 : s.sceneTimer + deltaTime ≥ SCENE_DURATION := h
      unfold updateSceneTransition initInfoMessages
      rw [if_pos h15]
      exact ⟨rfl, rfl⟩
    refine ⟨hs.1, hs.2, ?_, ?_⟩
    · intro h0
      rw [hs.2]
      exact Int.tmod_eq_emod (by omega) (by decide)
    · intro h8
      rw [hs.2, h8]
      decide
  · intro h
    have h15 : ¬ s.sceneTimer + deltaTime ≥ SCENE_DURATION := h
    unfold updateSceneTransition
    rw [if_neg h15]
    exact ⟨rfl, rfl⟩

/-- Witness for C1: from scene 8 with 14 s on the timer, a 1 s tick wraps to scene 0 and a
0.5 s tick stays on scene 8 with 14.5 s on the timer. -/
theorem updateSceneTransition_spec_witness :
    ((updateSceneTransition 1 lastSceneState).sceneTimer = 0 ∧
      (updateSceneTransition 1 lastSceneState).currentScene = 0) ∧
    ((updateSceneTransition (1/2) lastSceneState).currentScene = 8 ∧
      (updateSceneTransition (1/2) lastSceneState).sceneTimer = 14 + 1/2) := by
  have h1 := (updateSceneTransition_spec 1 lastSceneState).1
    (by norm_num [lastSceneState])
  have h2 := (updateSceneTransition_spec (1/2) lastSceneState).2
    (by norm_num [lastSceneState])
  exact ⟨⟨h1.1, h1.2.2.2 rfl⟩, h2⟩

/-- The characters `'1'`..`'9'` are exactly the nine `case` labels of the scene keys. -/
theorem digit_cases (c : Char) (h : '1' ≤ c ∧ c ≤ '9') :
    c ∈ ['1', '2', '3', '4', '5', '6', '7', '8', '9'] := by
  obtain ⟨h1, h2⟩ := h
  have h1n : 49 ≤ c.toNat := h1
  have h2n : c.toNat ≤ 57 := h2
  have hc : c = Char.ofNat c.toNat := by simp
  rw [hc]
  generalize c.toNat = n at h1n h2n
  interval_cases n <;> decide

/-- A scene key only assigns `currentScene`. -/
theorem key_digit_eq (c : Char) (x y : Int) (s : State) (hc : '1' ≤ c ∧ c ≤ '9') :
    key c x y s = some { s with currentScene := (c.toNat : Int) - ('1'.toNat : Int) } := by
  have h := digit_cases c hc
  simp only [List.mem_cons, List.mem_singleton, List.not_mem_nil, or_false] at h
  rcases h with h | h | h | h | h | h | h | h | h <;> subst h <;> rfl

/-- C2: for every digit character `c` in `'1'..'9'` and every state, the key handler returns
the state with `currentScene` set to `c - '1'` (key `'3'` gives scene index 2), whatever the
prior `sceneTimer`, and leaves `sceneTimer` unchanged. -/
theorem key_digit_sets_scene (c : Char) (x y : Int) (s : State) (hc : '1' ≤ c ∧ c ≤ '9') :
    ∃ s', key c x y s = some s' ∧
      s'.currentScene = (c.toNat : Int) - ('1'.toNat : Int) ∧
      s'.sceneTimer = s.sceneTimer ∧
      (c = '3' → s'.currentScene = 2) := by
  refine ⟨_, key_digit_eq c x y s hc, rfl, rfl, ?_⟩
  intro h3
  subst h3
  rfl

/-- Witness for C2: key `'3'` on scene 8 with 14 s on the scene timer. -/
theorem key_digit_sets_scene_witness :
    ∃ s', key '3' 0 0 lastSceneState = some s' ∧
      s'.currentScene = (('3' : Char).toNat : Int) - ('1'.toNat : Int) ∧
      s'.sceneTimer = lastSceneState.sceneTimer ∧
      ((('3' : Char) = '3') → s'.currentScene = 2) :=
  key_digit_sets_scene '3' 0 0 lastSceneState (by decide)

/-- `initInfoMessages` only assigns `infoMessages`. -/
theorem initInfoMessages_mosquitoes (s : State) :
    (initInfoMessages s).mosquitoes = s.mosquitoes := rfl

/-- `initInfoMessages` leaves `currentScene` alone. -/
theorem initInfoMessages_currentScene (s : State) :
    (initInfoMessages s).currentScene = s.currentScene := rfl

/-- `updateSceneTransition` when the timer reaches the scene duration. -/
theorem updateSceneTransition_fire (deltaTime : ℚ) (s : State)
    (h : s.sceneTimer + deltaTime ≥ 15) :
    updateSceneTransition deltaTime s =
      initInfoMessages
        { s with sceneTimer := 0, currentScene := Int.tmod (s.currentScene + 1) 9 } := by
  have h15 : s.sceneTimer + deltaTime ≥ SCENE_DURATION := h
  unfold updateSceneTransition
  rw [if_pos h15]
  rfl

/-- `updateSceneTransition` when the timer stays below the scene duration. -/
theorem updateSceneTransition_hold (deltaTime : ℚ) (s : State)
    (h : ¬ s.sceneTimer + deltaTime ≥ 15) :
    updateSceneTransition deltaTime s = { s with sceneTimer := s.sceneTimer + deltaTime } := by
  have h15 : ¬ s.sceneTimer + deltaTime ≥ SCENE_DURATION := h
  unfold updateSceneTransition
  rw [if_neg h15]

/-- `updateSceneTransition` never touches the mosquito pool. -/
theorem updateSceneTransition_mosquitoes (deltaTime : ℚ) (s : State) :
    (updateSceneTransition deltaTime s).mosquitoes = s.mosquitoes := by
  by_cases h : s.sceneTimer + deltaTime ≥ 15
  · rw [updateSceneTransition_fire deltaTime s h, initInfoMessages_mosquitoes]
  · rw [updateSceneTransition_hold deltaTime s h]

/-- C3 (explicit selection does not rebuild the messages): at startup the pool holds the
texts of scene 0; after key `'3'` the scene index is 2 and the pool is still the one of
scene 0, which is not the table entry of scene 2. The automatic advance from the same state
does rebuild the pool: it holds the texts of scene 1 with only the first message active. -/
theorem key_digit_keeps_messages :
    (∃ s', key '3' 0 0 startState = some s' ∧
      s'.currentScene = 2 ∧
      s'.infoMessages = startState.infoMessages ∧
      some (s'.infoMessages.map (fun m => m.text)) = SCENE_INFO 0 ∧
      some (s'.infoMessages.map (fun m => m.text)) ≠ SCENE_INFO 2) ∧
    ((updateSceneTransition 15 startState).currentScene = 1 ∧
      some ((updateSceneTransition 15 startState).infoMessages.map (fun m => m.text))
        = SCENE_INFO 1 ∧
      OnlyActiveAt (updateSceneTransition 15 startState).infoMessages 0) := by
  have hfire : startState.sceneTimer + 15 ≥ 15 := by
    show (0 : ℚ) + 15 ≥ 15
    norm_num
  constructor
  · refine ⟨_, key_digit_eq '3' 0 0 startState (by decide), rfl, rfl, ?_, ?_⟩ <;> decide
  · rw [updateSceneTransition_fire 15 startState hfire]
    exact ⟨by decide, by decide, by decide⟩

/-- C4 fails as stated: the automatic advance from scene 0 to scene 1 and the key `'3'` both
leave the startup pool of one mosquito in place instead of ten mosquitoes. -/
theorem scene_change_pool_counterexample :
    (updateSceneTransition 15 startState).currentScene = 1 ∧
    (updateSceneTransition 15 startState).mosquitoes.length = 1 ∧
    (updateSceneTransition 15 startState).mosquitoes.length ≠ 10 ∧
    (∃ s', key '3' 0 0 startState = some s' ∧ s'.currentScene = 2 ∧
      s'.mosquitoes.length = 1 ∧ s'.mosquitoes.length ≠ 10) := by
  have hfire : startState.sceneTimer + 15 ≥ 15 := by
    show (0 : ℚ) + 15 ≥ 15
    norm_num
  have hlen : (updateSceneTransition 15 startState).mosquitoes.length = 1 := by
    rw [updateSceneTransition_mosquitoes]
    rfl
  refine ⟨?_, hlen, by rw [hlen]; decide, _, key_digit_eq '3' 0 0 startState (by decide),
    rfl, rfl, by decide⟩
  rw [updateSceneTransition_fire 15 startState hfire, initInfoMessages_currentScene]
  rfl

/-- C4 (amended): a scene change, by `updateSceneTransition` or by a digit key, leaves the
mosquito pool as it was; the pool is built by `initMosquitoes` at startup only, where the
scene is 0 and the pool is the single scripted mosquito. -/
theorem scene_change_keeps_pool (rand : Nat → Nat) (deltaTime : ℚ) (c : Char) (x y : Int)
    (s : State) (hc : '1' ≤ c ∧ c ≤ '9') :
    (updateSceneTransition deltaTime s).mosquitoes = s.mosquitoes ∧
    (∃ s', key c x y s = some s' ∧ s'.mosquitoes = s.mosquitoes) ∧
    (startup rand).mosquitoes = [⟨-2, 2, 0.02, -0.01, 0, true⟩] :=
  ⟨updateSceneTransition_mosquitoes deltaTime s, ⟨_, key_digit_eq c x y s hc, rfl⟩, rfl⟩

/-- Witness for C4 (amended): the scene timer firing on scene 8 and the key `'3'`. -/
theorem scene_change_keeps_pool_witness :
    (updateSceneTransition 1 lastSceneState).mosquitoes = lastSceneState.mosquitoes ∧
    (∃ s', key '3' 0 0 lastSceneState = some s' ∧ s'.mosquitoes = lastSceneState.mosquitoes) ∧
    (startup zeroRand).mosquitoes = [⟨-2, 2, 0.02, -0.01, 0, true⟩] :=
  scene_change_keeps_pool zeroRand 1 '3' 0 0 lastSceneState (by decide)

/-! ## Message rotation -/

/-- Assigning a flag keeps the pool size. -/
theorem setActive_length (msgs : List InfoMessage) (i : Nat) (b : Bool) :
    (setActive msgs i b).length = msgs.length := by
  induction msgs generalizing i with
  | nil => rfl
  | cons m ms ih => cases i <;> simp [setActive, ih]

/-- Assigning a flag keeps the texts. -/
theorem setActive_text (msgs : List InfoMessage) (i : Nat) (b : Bool) :
    (setActive msgs i b).map (fun m => m.text) = msgs.map (fun m => m.text) := by
  induction msgs generalizing i with
  | nil => rfl
  | cons m ms ih => cases i <;> simp [setActive, ih]

/-- Assigning a flag is `List.set` on the list of flags. -/
theorem setActive_flags (msgs : List InfoMessage) (i : Nat) (b : Bool) :
    activeFlags (setActive msgs i b) = (activeFlags msgs).set i b := by
  induction msgs generalizing i with
  | nil => rfl
  | cons m ms ih =>
    cases i with
    | zero => rfl
    | succ i =>
      have h := ih i
      simp only [activeFlags] at h
      simp [setActive, activeFlags, h]

/-- Reading a list of flags after one in-range assignment. -/
theorem getD_set_flags (l : List Bool) (i j : Nat) (b : Bool) (hi : i < l.length) :
    (l.set i b).getD j false = if j = i then b else l.getD j false := by
  induction l generalizing i j with
  | nil => simp at hi
  | cons a l ih =>
    cases i with
    | zero => cases j <;> simp
    | succ i =>
      cases j with
      | zero => simp
      | succ j =>
        have hi2 : i < l.length := by simpa using hi
        simpa using ih i j hi2

/-- The pool after the body of the rotation loop ran at index `i`. -/
theorem rotateLoop_found (msgs : List InfoMessage) (i : Nat) (fuel k : Nat)
    (hi : i < msgs.length) (hact : (activeFlags msgs).getD i false = true)
    (hk : k ≤ i) (hfuel : i - k < fuel)
    (hbefore : ∀ j, k ≤ j → j < i → (activeFlags msgs).getD j false = false) :
    rotateLoop msgs k fuel =
      setActive (setActive msgs i false) ((i + 1) % msgs.length) true := by
  induction fuel generalizing k with
  | zero => omega
  | succ fuel ih =>
    have hklen : k < msgs.length := by omega
    unfold rotateLoop
    rw [if_pos hklen]
    by_cases hki : k = i
    · subst hki
      have h1 : (List.map (fun m => m.active) msgs).getD k false = true := hact
      rw [if_pos h1]
      simp only [setActive_length]
      by_cases hnext : k + 1 < msgs.length
      · rw [if_pos hnext, Nat.mod_eq_of_lt hnext]
      · rw [if_neg hnext]
        have : k + 1 = msgs.length := by omega
        rw [this, Nat.mod_self]
    · have h1 : ¬ (List.map (fun m => m.active) msgs).getD k false = true := by
        have := hbefore k (le_refl k) (by omega)
        simp only [activeFlags] at this
        rw [this]
        exact Bool.false_ne_true
      rw [if_neg h1]
      exact ih (k + 1) (by omega) (by omega) (fun j hj1 hj2 => hbefore j (by omega) hj2)

/-- The rotation loop keeps the pool size. -/
theorem rotateLoop_length (msgs : List InfoMessage) (k fuel : Nat) :
    (rotateLoop msgs k fuel).length = msgs.length := by
  induction fuel generalizing k with
  | zero => rfl
  | succ fuel ih =>
    unfold rotateLoop
    split
    · split
      · simp only [setActive_length]; split <;> simp [setActive_length]
      · exact ih (k + 1)
    · rfl

/-- The rotation loop keeps the texts. -/
theorem rotateLoop_text (msgs : List InfoMessage) (k fuel : Nat) :
    (rotateLoop msgs k fuel).map (fun m => m.text) = msgs.map (fun m => m.text) := by
  induction fuel generalizing k with
  | zero => rfl
  | succ fuel ih =>
    unfold rotateLoop
    split
    · split
      · simp only []; split <;> simp [setActive_text]
      · exact ih (k + 1)
    · rfl

/-- One run of the rotation loop moves the only active index from `i` to `(i + 1) % N`. -/
theorem rotate_onlyActive (msgs : List InfoMessage) (i : Nat) (h : OnlyActiveAt msgs i) :
    OnlyActiveAt (rotateLoop msgs 0 msgs.length) ((i + 1) % msgs.length) := by
  obtain ⟨hi, hall⟩ := h
  have hfound := rotateLoop_found msgs i msgs.length 0 hi ((hall i hi).2 rfl) (Nat.zero_le _)
    (by omega) (fun j _ hj => by
      have := hall j (by omega)
      cases hb : (activeFlags msgs).getD j false
      · rfl
      · have := this.1 hb; omega)
  have hn : (i + 1) % msgs.length < msgs.length := Nat.mod_lt _ (by omega)
  rw [hfound]
  refine ⟨by simpa [setActive_length] using hn, ?_⟩
  intro j hj
  simp only [setActive_length] at hj
  rw [setActive_flags, setActive_flags,
    getD_set_flags _ _ _ _ (by simpa [activeFlags] using hn),
    getD_set_flags _ _ _ _ (by simpa [activeFlags] using hi)]
  by_cases hjn : j = (i + 1) % msgs.length
  · rw [if_pos hjn]
    exact ⟨fun _ => hjn, fun _ => rfl⟩
  · rw [if_neg hjn]
    by_cases hji : j = i
    · rw [if_pos hji]
      exact ⟨fun h => Bool.noConfusion h, fun h => absurd h hjn⟩
    · rw [if_neg hji]
      exact ⟨fun hb => absurd ((hall j hj).1 hb) hji, fun h => absurd h hjn⟩


/-- A list of flags without a `true` reads `false` at every index. -/
theorem count_true_zero (l : List Bool) (h : l.count true = 0) (j : Nat) :
    l.getD j false = false := by
  induction l generalizing j with
  | nil => rfl
  | cons a l ih =>
    cases a with
    | true => simp at h
    | false =>
      have hl : l.count true = 0 := by simpa using h
      cases j with
      | zero => rfl
      | succ j => simpa using ih hl j

/-- A list of flags reading `false` at every index has no `true`. -/
theorem zero_count_true (l : List Bool) (h : ∀ j, j < l.length → l.getD j false = false) :
    l.count true = 0 := by
  induction l with
  | nil => rfl
  | cons a l ih =>
    have h0 : a = false := by simpa using h 0 (by simp)
    subst h0
    have hl : l.count true = 0 :=
      ih (fun j hj => by simpa using h (j + 1) (by simpa using hj))
    simpa using hl

/-- A list of flags with exactly one `true` has one index holding it. -/
theorem count_true_one (l : List Bool) (h : l.count true = 1) :
    ∃ i, i < l.length ∧ ∀ j, j < l.length → (l.getD j false = true ↔ j = i) := by
  induction l with
  | nil => simp at h
  | cons a l ih =>
    cases a with
    | true =>
      have hl : l.count true = 0 := by simpa using h
      refine ⟨0, by simp, ?_⟩
      intro j _
      cases j with
      | zero => simp
      | succ j =>
        rw [List.getD_cons_succ, count_true_zero l hl j]
        simp
    | false =>
      have hl : l.count true = 1 := by simpa using h
      obtain ⟨i, hi, hall⟩ := ih hl
      refine ⟨i + 1, by simpa using hi, ?_⟩
      intro j hj
      cases j with
      | zero => simp
      | succ j =>
        have := hall j (by simpa using hj)
        simpa using this

/-- A list of flags that is `true` at one index only has exactly one `true`. -/
theorem one_count_true (l : List Bool) (i : Nat) (hi : i < l.length)
    (hall : ∀ j, j < l.length → (l.getD j false = true ↔ j = i)) :
    l.count true = 1 := by
  induction l generalizing i with
  | nil => simp at hi
  | cons a l ih =>
    cases i with
    | zero =>
      have ha : a = true := by simpa using (hall 0 (by simp)).2 rfl
      subst ha
      have hl : l.count true = 0 := zero_count_true l (fun j hj => by
        have := hall (j + 1) (by simpa using hj)
        cases hb : l.getD j false
        · rfl
        · have h2 := this.1 (by simpa using hb)
          omega)
      simp [hl]
    | succ i =>
      have ha : a = false := by
        cases a
        · rfl
        · have := (hall 0 (by simp)).1 (by simp)
          omega
      subst ha
      have hl : l.count true = 1 := ih i (by simpa using hi) (fun j hj => by
        have := hall (j + 1) (by simpa using hj)
        simpa using this)
      simpa using hl

/-- Exactly one active message means some index is the only active one. -/
theorem activeCount_one_iff (msgs : List InfoMessage) :
    activeCount msgs = 1 ↔ ∃ i, OnlyActiveAt msgs i := by
  constructor
  · intro h
    obtain ⟨i, hi, hall⟩ := count_true_one (activeFlags msgs) h
    have hlen : (activeFlags msgs).length = msgs.length := by simp [activeFlags]
    exact ⟨i, by omega, fun j hj => hall j (by omega)⟩
  · rintro ⟨i, hi, hall⟩
    have hlen : (activeFlags msgs).length = msgs.length := by simp [activeFlags]
    exact one_count_true (activeFlags msgs) i (by omega) (fun j hj => hall j (by omega))


/-- `updateInfoMessages` when the timer reaches the message duration. -/
theorem updateInfoMessages_fire (deltaTime : ℚ) (s : State)
    (h : s.messageTimer + deltaTime ≥ 5) :
    updateInfoMessages deltaTime s =
      { s with messageTimer := 0,
               infoMessages := rotateLoop s.infoMessages 0 s.infoMessages.length } := by
  have h5 : s.messageTimer + deltaTime ≥ MESSAGE_DURATION := h
  unfold updateInfoMessages
  rw [if_pos h5]

/-- `updateInfoMessages` when the timer stays below the message duration. -/
theorem updateInfoMessages_hold (deltaTime : ℚ) (s : State)
    (h : ¬ s.messageTimer + deltaTime ≥ 5) :
    updateInfoMessages deltaTime s = { s with messageTimer := s.messageTimer + deltaTime } := by
  have h5 : ¬ s.messageTimer + deltaTime ≥ MESSAGE_DURATION := h
  unfold updateInfoMessages
  rw [if_neg h5]

/-- The pool built by `initInfoMessages` for a scene of the table: the table's texts in
table order, the first message active and the others inactive. -/
theorem initInfoMessages_pool (s : State) (h : 0 ≤ s.currentScene ∧ s.currentScene ≤ 8) :
    some ((initInfoMessages s).infoMessages.map (fun m => m.text)) = SCENE_INFO s.currentScene ∧
    OnlyActiveAt (initInfoMessages s).infoMessages 0 := by
  obtain ⟨h0, h8⟩ := h
  show some ((scenePool s.currentScene).map (fun m => m.text)) = SCENE_INFO s.currentScene ∧
    OnlyActiveAt (scenePool s.currentScene) 0
  generalize s.currentScene = c at h0 h8
  interval_cases c <;> exact ⟨by decide, by decide⟩

/-- C5: exactly one message is active whenever the pool is non-empty: `initInfoMessages` for
a scene in `0..8` builds a non-empty pool with exactly one active message, at index 0; and
for every `deltaTime`, `updateInfoMessages` maps a non-empty pool with exactly one active
message to a pool of the same length and texts with exactly one active message. -/
theorem exactly_one_active (deltaTime : ℚ) (s : State) :
    (0 ≤ s.currentScene ∧ s.currentScene ≤ 8 →
      (initInfoMessages s).infoMessages ≠ [] ∧
      activeCount (initInfoMessages s).infoMessages = 1 ∧
      OnlyActiveAt (initInfoMessages s).infoMessages 0) ∧
    (s.infoMessages ≠ [] → activeCount s.infoMessages = 1 →
      (updateInfoMessages deltaTime s).infoMessages.length = s.infoMessages.length ∧
      (updateInfoMessages deltaTime s).infoMessages.map (fun m => m.text)
        = s.infoMessages.map (fun m => m.text) ∧
      activeCount (updateInfoMessages deltaTime s).infoMessages = 1) := by
  constructor
  · intro h
    have hp := (initInfoMessages_pool s h).2
    refine ⟨?_, (activeCount_one_iff _).2 ⟨0, hp⟩, hp⟩
    intro hnil
    have := hp.1
    rw [hnil] at this
    exact Nat.lt_irrefl 0 this
  · intro _ hone
    by_cases hfire : s.messageTimer + deltaTime ≥ 5
    · rw [updateInfoMessages_fire deltaTime s hfire]
      obtain ⟨i, hi⟩ := (activeCount_one_iff _).1 hone
      exact ⟨rotateLoop_length _ _ _, rotateLoop_text _ _ _,
        (activeCount_one_iff _).2 ⟨_, rotate_onlyActive _ i hi⟩⟩
    · rw [updateInfoMessages_hold deltaTime s hfire]
      exact ⟨rfl, rfl, hone⟩

/-- Witness for C5: the startup state (scene 0, four messages, the first one active) with a
5 s tick. -/
theorem exactly_one_active_witness :
    ((initInfoMessages startState).infoMessages ≠ [] ∧
      activeCount (initInfoMessages startState).infoMessages = 1 ∧
      OnlyActiveAt (initInfoMessages startState).infoMessages 0) ∧
    ((updateInfoMessages 5 startState).infoMessages.length = startState.infoMessages.length ∧
      (updateInfoMessages 5 startState).infoMessages.map (fun m => m.text)
        = startState.infoMessages.map (fun m => m.text) ∧
      activeCount (updateInfoMessages 5 startState).infoMessages = 1) :=
  ⟨(exactly_one_active 5 startState).1 (by decide),
   (exactly_one_active 5 startState).2 (by decide) (by decide)⟩

/-- After `k` rotations fed as 5 s steps, starting from index 0 with a non-negative timer,
the only active index is `k % N`; the pool size stays `N` and the timer is non-negative. -/
theorem rotations_index (s : State) (h0 : OnlyActiveAt s.infoMessages 0)
    (ht : 0 ≤ s.messageTimer) (k : Nat) :
    OnlyActiveAt ((updateInfoMessages 5)^[k] s).infoMessages (k % s.infoMessages.length) ∧
    ((updateInfoMessages 5)^[k] s).infoMessages.length = s.infoMessages.length ∧
    0 ≤ ((updateInfoMessages 5)^[k] s).messageTimer := by
  induction k with
  | zero =>
    refine ⟨?_, rfl, ht⟩
    rw [Nat.zero_mod]
    exact h0
  | succ k ih =>
    obtain ⟨hact, hlen, htim⟩ := ih
    rw [Function.iterate_succ_apply']
    have hfire : ((updateInfoMessages 5)^[k] s).messageTimer + 5 ≥ 5 := by linarith
    rw [updateInfoMessages_fire 5 _ hfire]
    refine ⟨?_, ?_, le_refl _⟩
    · have hrot := rotate_onlyActive _ _ hact
      have hidx : (k % s.infoMessages.length + 1)
            % ((updateInfoMessages 5)^[k] s).infoMessages.length
          = (k + 1) % s.infoMessages.length := by
        rw [hlen, Nat.mod_add_mod]
      rw [hidx] at hrot
      exact hrot
    · show (rotateLoop _ _ _).length = _
      rw [rotateLoop_length, hlen]

/-- C6: message rotation is cyclic. For a pool of `N ≥ 1` messages whose only active message
is index `i`, one `updateInfoMessages` call in which `messageTimer` reaches 5.0 makes index
`(i + 1) % N` the only active message and resets `messageTimer` to 0; hence, starting from
index 0, after `k` rotations fed as 5.0 s steps the active index is `k % N`, and after `N`
of them it is 0 again. -/
theorem rotation_cyclic (deltaTime : ℚ) (s : State) (i : Nat) :
    (OnlyActiveAt s.infoMessages i → s.messageTimer + deltaTime ≥ 5 →
      OnlyActiveAt (updateInfoMessages deltaTime s).infoMessages
        ((i + 1) % s.infoMessages.length) ∧
      (updateInfoMessages deltaTime s).messageTimer = 0) ∧
    (OnlyActiveAt s.infoMessages 0 → 0 ≤ s.messageTimer →
      (∀ k, OnlyActiveAt ((updateInfoMessages 5)^[k] s).infoMessages
        (k % s.infoMessages.length)) ∧
      OnlyActiveAt ((updateInfoMessages 5)^[s.infoMessages.length] s).infoMessages 0) := by
  constructor
  · intro hact hfire
    rw [updateInfoMessages_fire deltaTime s hfire]
    exact ⟨rotate_onlyActive _ i hact, rfl⟩
  · intro h0 ht
    refine ⟨fun k => (rotations_index s h0 ht k).1, ?_⟩
    have := (rotations_index s h0 ht s.infoMessages.length).1
    rw [Nat.mod_self] at this
    exact this

/-- Witness for C6: the startup pool of four messages; one 5 s step activates index 1, and
four 5 s steps bring the active index back to 0. -/
theorem rotation_cyclic_witness :
    (OnlyActiveAt (updateInfoMessages 5 startState).infoMessages 1 ∧
      (updateInfoMessages 5 startState).messageTimer = 0) ∧
    OnlyActiveAt ((updateInfoMessages 5)^[4] startState).infoMessages 0 :=
  ⟨(rotation_cyclic 5 startState 0).1 (by decide)
      (by show (0 : ℚ) + 5 ≥ 5; norm_num),
   ((rotation_cyclic 5 startState 0).2 (by decide) (le_refl 0)).2⟩

/-! ## Frame lemmas for the per-frame update -/

/-- `moveMosquito` keeps the `alive` flag. -/
theorem moveMosquito_alive (sqrtf : ℚ → ℚ) (rand : Nat → Nat) (k : Nat) (m : Mosquito) :
    (moveMosquito sqrtf rand k m).1.alive = m.alive := by
  unfold moveMosquito
  split <;> rfl

/-- The per-mosquito loop keeps the `alive` flags, hence the pool size. -/
theorem moveAll_aliveFlags (sqrtf : ℚ → ℚ) (rand : Nat → Nat) (k : Nat) (pool : List Mosquito) :
    aliveFlags (moveAll sqrtf rand k pool).1 = aliveFlags pool := by
  induction pool generalizing k with
  | nil => rfl
  | cons m ms ih =>
    show (moveMosquito sqrtf rand k m).1.alive :: aliveFlags (moveAll sqrtf rand _ ms).1 = _
    rw [moveMosquito_alive, ih]
    rfl

/-- The per-mosquito loop keeps the pool size. -/
theorem moveAll_length (sqrtf : ℚ → ℚ) (rand : Nat → Nat) (k : Nat) (pool : List Mosquito) :
    (moveAll sqrtf rand k pool).1.length = pool.length := by
  have h := congrArg List.length (moveAll_aliveFlags sqrtf rand k pool)
  simpa [aliveFlags] using h

/-- `updateMosquitoes` assigns only the spawn timer, the pool and the death-animation pair. -/
theorem updateMosquitoes_frame (sqrtf : ℚ → ℚ) (rand : Nat → Nat) (k : Nat) (s : State) :
    ∃ timer pool deathTimer deathAnimation,
      (updateMosquitoes sqrtf rand k s).1 =
        { s with mosquitoSpawnTimer := timer, mosquitoes := pool,
                 mosquitoDeathTimer := deathTimer, mosquitoDeathAnimation := deathAnimation } := by
  unfold updateMosquitoes
  simp only []
  split
  · split
    · exact ⟨_, _, _, _, rfl⟩
    · exact ⟨_, _, _, _, rfl⟩
  · exact ⟨_, _, _, _, rfl⟩

/-- `updateInfoMessages` assigns only the message timer and the message pool. -/
theorem updateInfoMessages_frame (deltaTime : ℚ) (s : State) :
    ∃ timer pool,
      updateInfoMessages deltaTime s = { s with messageTimer := timer, infoMessages := pool } := by
  by_cases h : s.messageTimer + deltaTime ≥ 5
  · exact ⟨_, _, updateInfoMessages_fire deltaTime s h⟩
  · exact ⟨_, _, updateInfoMessages_hold deltaTime s h⟩

/-- `updateSceneTransition` assigns only the scene timer, the scene index and the message
pool. -/
theorem updateSceneTransition_frame (deltaTime : ℚ) (s : State) :
    ∃ timer scene pool,
      updateSceneTransition deltaTime s =
        { s with sceneTimer := timer, currentScene := scene, infoMessages := pool } := by
  by_cases h : s.sceneTimer + deltaTime ≥ 15
  · exact ⟨_, _, _, updateSceneTransition_fire deltaTime s h⟩
  · exact ⟨_, _, _, updateSceneTransition_hold deltaTime s h⟩

/-- The first three calls of `updateAnimations` leave the water level, its direction, the
kill state and the death-animation-independent scalars alone; the pool is the one
`updateMosquitoes` produced. -/
theorem updates_frame (sqrtf : ℚ → ℚ) (rand : Nat → Nat) (deltaTime : ℚ) (s : State) :
    let s2 := updateSceneTransition deltaTime
      (updateInfoMessages deltaTime (updateMosquitoes sqrtf rand 0 s).1)
    s2.waterLevel = s.waterLevel ∧ s2.waterRising = s.waterRising ∧
    s2.isKillingMosquito = s.isKillingMosquito ∧ s2.killEffectTime = s.killEffectTime ∧
    s2.mosquitoToKill = s.mosquitoToKill ∧ s2.killedMosquitoes = s.killedMosquitoes ∧
    s2.mosquitoes = (updateMosquitoes sqrtf rand 0 s).1.mosquitoes := by
  obtain ⟨t1, p1, d1, a1, h1⟩ := updateMosquitoes_frame sqrtf rand 0 s
  obtain ⟨t2, p2, h2⟩ := updateInfoMessages_frame deltaTime (updateMosquitoes sqrtf rand 0 s).1
  obtain ⟨t3, c3, p3, h3⟩ := updateSceneTransition_frame deltaTime
    (updateInfoMessages deltaTime (updateMosquitoes sqrtf rand 0 s).1)
  simp only []
  rw [h3, h2, h1]
  exact ⟨rfl, rfl, rfl, rfl, rfl, rfl, rfl⟩

/-- `updateAnimations` with animation enabled, as the composition of its steps. -/
theorem updateAnimations_enabled (sqrtf : ℚ → ℚ) (rand : Nat → Nat) (deltaTime : ℚ) (s : State)
    (h : s.isAnimating = true) :
    updateAnimations sqrtf rand deltaTime s =
      updateEffects rand (updateMosquitoes sqrtf rand 0 s).2 deltaTime
        (updateKillEffect deltaTime (updateWaterLevel deltaTime
          (updateSceneTransition deltaTime
            (updateInfoMessages deltaTime (updateMosquitoes sqrtf rand 0 s).1)))) := by
  unfold updateAnimations
  simp [h]

/-- The kill-effect block leaves the water level alone. -/
theorem updateKillEffect_waterLevel (deltaTime : ℚ) (s : State) :
    (updateKillEffect deltaTime s).waterLevel = s.waterLevel := by
  unfold updateKillEffect
  split
  · simp only []
    split <;> rfl
  · rfl

/-- The water level written by the water block. -/
theorem updateWaterLevel_waterLevel (deltaTime : ℚ) (s : State) :
    (updateWaterLevel deltaTime s).waterLevel =
      if s.waterRising then s.waterLevel + 0.01 * deltaTime
      else s.waterLevel - 0.01 * deltaTime := by
  unfold updateWaterLevel
  split <;> rfl

/-- The water level after one enabled `updateAnimations` call. -/
theorem updateAnimations_waterLevel (sqrtf : ℚ → ℚ) (rand : Nat → Nat) (deltaTime : ℚ)
    (s : State) (h : s.isAnimating = true) :
    (updateAnimations sqrtf rand deltaTime s).waterLevel =
      if s.waterRising then s.waterLevel + 0.01 * deltaTime
      else s.waterLevel - 0.01 * deltaTime := by
  have hf := updates_frame sqrtf rand deltaTime s
  simp only [] at hf
  rw [updateAnimations_enabled sqrtf rand deltaTime s h]
  show (updateKillEffect deltaTime _).waterLevel = _
  rw [updateKillEffect_waterLevel, updateWaterLevel_waterLevel, hf.1, hf.2.1]

/-! ## Water level -/

/-- C7 fails as stated: with animation enabled, the water rising and `waterLevel = 1`, a
tick of 1 s leaves `waterLevel = 1.01`, outside `[0, 1]`. -/
theorem waterLevel_counterexample :
    fullWaterState.isAnimating = true ∧
    0 ≤ fullWaterState.waterLevel ∧ fullWaterState.waterLevel ≤ 1 ∧
    (updateAnimations sqrtApprox zeroRand 1 fullWaterState).waterLevel = 1.01 ∧
    ¬ (updateAnimations sqrtApprox zeroRand 1 fullWaterState).waterLevel ≤ 1 := by
  have hw : (updateAnimations sqrtApprox zeroRand 1 fullWaterState).waterLevel = 1.01 := by
    rw [updateAnimations_waterLevel sqrtApprox zeroRand 1 fullWaterState rfl]
    show (if true = true then (1 : ℚ) + 0.01 * 1 else 1 - 0.01 * 1) = 1.01
    norm_num
  refine ⟨rfl, ?_, ?_, hw, ?_⟩
  · show (0 : ℚ) ≤ 1
    norm_num
  · show (1 : ℚ) ≤ 1
    norm_num
  · rw [hw]
    norm_num

/-- C7 (amended): for every `deltaTime ≥ 0` and every state with animation enabled and
`waterLevel` in `[0, 1]`, the `waterLevel` after `updateAnimations` is the old level moved
by `0.01 * deltaTime` in the current direction, so it lies in
`[-0.01 * deltaTime, 1 + 0.01 * deltaTime]`: it can leave `[0, 1]` by at most one step. -/
theorem waterLevel_step_bound (sqrtf : ℚ → ℚ) (rand : Nat → Nat) (deltaTime : ℚ) (s : State)
    (hdt : 0 ≤ deltaTime) (ha : s.isAnimating = true)
    (h0 : 0 ≤ s.waterLevel) (h1 : s.waterLevel ≤ 1) :
    (updateAnimations sqrtf rand deltaTime s).waterLevel =
      (if s.waterRising then s.waterLevel + 0.01 * deltaTime
       else s.waterLevel - 0.01 * deltaTime) ∧
    -(0.01 * deltaTime) ≤ (updateAnimations sqrtf rand deltaTime s).waterLevel ∧
    (updateAnimations sqrtf rand deltaTime s).waterLevel ≤ 1 + 0.01 * deltaTime := by
  have hw := updateAnimations_waterLevel sqrtf rand deltaTime s ha
  refine ⟨hw, ?_, ?_⟩
  · rw [hw]
    split <;> nlinarith
  · rw [hw]
    split <;> nlinarith

/-- Witness for C7 (amended): the full-water state with a 1 s tick. -/
theorem waterLevel_step_bound_witness :
    (updateAnimations sqrtApprox zeroRand 1 fullWaterState).waterLevel =
      (if fullWaterState.waterRising then fullWaterState.waterLevel + 0.01 * 1
       else fullWaterState.waterLevel - 0.01 * 1) ∧
    -(0.01 * 1) ≤ (updateAnimations sqrtApprox zeroRand 1 fullWaterState).waterLevel ∧
    (updateAnimations sqrtApprox zeroRand 1 fullWaterState).waterLevel ≤ 1 + 0.01 * 1 :=
  waterLevel_step_bound sqrtApprox zeroRand 1 fullWaterState (by norm_num) rfl
    (by show (0 : ℚ) ≤ 1; norm_num) (by show (1 : ℚ) ≤ 1; norm_num)

/-! ## Mosquito population -/

/-- Assigning an `alive` flag keeps the pool size. -/
theorem setAlive_length (pool : List Mosquito) (i : Nat) (b : Bool) :
    (setAlive pool i b).length = pool.length := by
  induction pool generalizing i with
  | nil => rfl
  | cons m ms ih => cases i <;> simp [setAlive, ih]

/-- Assigning an `alive` flag is `List.set` on the list of flags. -/
theorem setAlive_flags (pool : List Mosquito) (i : Nat) (b : Bool) :
    aliveFlags (setAlive pool i b) = (aliveFlags pool).set i b := by
  induction pool generalizing i with
  | nil => rfl
  | cons m ms ih =>
    cases i with
    | zero => rfl
    | succ i =>
      have h := ih i
      simp only [aliveFlags] at h
      simp [setAlive, aliveFlags, h]

/-- The bounds-checked kill assignment keeps the pool size. -/
theorem markKilled_length (i : Int) (pool : List Mosquito) :
    (markKilled i pool).length = pool.length := by
  unfold markKilled
  split
  · exact setAlive_length _ _ _
  · rfl

/-- The pool and spawn timer after `updateMosquitoes` while no death animation runs: the old
pool, with the spawned mosquito appended when the spawn condition holds, after the move loop. -/
theorem updateMosquitoes_noDeath (sqrtf : ℚ → ℚ) (rand : Nat → Nat) (k : Nat) (s : State)
    (hd : s.mosquitoDeathAnimation = false) :
    aliveFlags (updateMosquitoes sqrtf rand k s).1.mosquitoes =
      aliveFlags s.mosquitoes ++ (if spawnDue s then [true] else []) ∧
    (updateMosquitoes sqrtf rand k s).1.mosquitoDeathAnimation = false := by
  unfold updateMosquitoes
  simp only [hd, Bool.false_eq_true, if_false]
  refine ⟨?_, trivial⟩
  rw [moveAll_aliveFlags]
  cases spawnDue s
  · simp [aliveFlags]
  · simp [aliveFlags, spawnMosquito]

/-- The pool size after `updateMosquitoes` while no death animation runs. -/
theorem updateMosquitoes_length_noDeath (sqrtf : ℚ → ℚ) (rand : Nat → Nat) (k : Nat) (s : State)
    (hd : s.mosquitoDeathAnimation = false) :
    (updateMosquitoes sqrtf rand k s).1.mosquitoes.length =
      s.mosquitoes.length + (if spawnDue s then 1 else 0) := by
  have h := congrArg List.length (updateMosquitoes_noDeath sqrtf rand k s hd).1
  simp only [aliveFlags, List.length_map, List.length_append] at h
  rw [h]
  cases spawnDue s <;> rfl

/-- What one `updateMosquitoes` call does to the pool size and the spawn timer. -/
theorem updateMosquitoes_spawn (sqrtf : ℚ → ℚ) (rand : Nat → Nat) (k : Nat) (s : State) :
    (updateMosquitoes sqrtf rand k s).1.mosquitoes.length ≤
      s.mosquitoes.length + (if spawnDue s then 1 else 0) ∧
    (spawnDue s = true → (updateMosquitoes sqrtf rand k s).1.mosquitoSpawnTimer = 0) := by
  unfold updateMosquitoes
  simp only []
  have hlen : ∀ k1, (moveAll sqrtf rand k1
      (if spawnDue s then s.mosquitoes ++ [spawnMosquito rand k] else s.mosquitoes)).1.length
      = s.mosquitoes.length + (if spawnDue s then 1 else 0) := by
    intro k1
    rw [moveAll_length]
    cases spawnDue s <;> simp
  split
  · split
    · refine ⟨?_, fun h => by simp [h]⟩
      exact le_trans (List.length_filter_le _ _) (le_of_eq (hlen _))
    · exact ⟨le_of_eq (hlen _), fun h => by simp [h]⟩
  · exact ⟨le_of_eq (hlen _), fun h => by simp [h]⟩

/-- The kill-effect block keeps the pool size. -/
theorem updateKillEffect_length (deltaTime : ℚ) (s : State) :
    (updateKillEffect deltaTime s).mosquitoes.length = s.mosquitoes.length := by
  unfold updateKillEffect
  split
  · simp only []
    split
    · exact markKilled_length _ _
    · rfl
  · rfl

/-- The water block leaves the pool and the kill state alone. -/
theorem updateWaterLevel_frame (deltaTime : ℚ) (s : State) :
    ∃ w r, updateWaterLevel deltaTime s = { s with waterLevel := w, waterRising := r } := by
  unfold updateWaterLevel
  split
  · exact ⟨_, _, rfl⟩
  · exact ⟨_, _, rfl⟩

/-- The state entering the kill-effect block of an enabled `updateAnimations` call agrees
with the entry state on the kill fields and carries the pool of `updateMosquitoes`. -/
theorem beforeKillEffect_frame (sqrtf : ℚ → ℚ) (rand : Nat → Nat) (deltaTime : ℚ) (s : State) :
    (updateWaterLevel deltaTime (updateSceneTransition deltaTime
      (updateInfoMessages deltaTime (updateMosquitoes sqrtf rand 0 s).1))).isKillingMosquito
      = s.isKillingMosquito ∧
    (updateWaterLevel deltaTime (updateSceneTransition deltaTime
      (updateInfoMessages deltaTime (updateMosquitoes sqrtf rand 0 s).1))).killEffectTime
      = s.killEffectTime ∧
    (updateWaterLevel deltaTime (updateSceneTransition deltaTime
      (updateInfoMessages deltaTime (updateMosquitoes sqrtf rand 0 s).1))).mosquitoToKill
      = s.mosquitoToKill ∧
    (updateWaterLevel deltaTime (updateSceneTransition deltaTime
      (updateInfoMessages deltaTime (updateMosquitoes sqrtf rand 0 s).1))).killedMosquitoes
      = s.killedMosquitoes ∧
    (updateWaterLevel deltaTime (updateSceneTransition deltaTime
      (updateInfoMessages deltaTime (updateMosquitoes sqrtf rand 0 s).1))).mosquitoes
      = (updateMosquitoes sqrtf rand 0 s).1.mosquitoes := by
  have hf := updates_frame sqrtf rand deltaTime s
  obtain ⟨w, r, hw⟩ := updateWaterLevel_frame deltaTime (updateSceneTransition deltaTime
      (updateInfoMessages deltaTime (updateMosquitoes sqrtf rand 0 s).1))
  simp only [] at hf
  rw [hw]
  exact ⟨hf.2.2.1, hf.2.2.2.1, hf.2.2.2.2.1, hf.2.2.2.2.2.1, hf.2.2.2.2.2.2⟩

/-- One `updateAnimations` call keeps the pool within `MAX_MOSQUITOES`. -/
theorem updateAnimations_length_le (sqrtf : ℚ → ℚ) (rand : Nat → Nat) (deltaTime : ℚ)
    (s : State) (h : s.mosquitoes.length ≤ 20) :
    (updateAnimations sqrtf rand deltaTime s).mosquitoes.length ≤ 20 := by
  cases ha : s.isAnimating
  · unfold updateAnimations
    simp [ha, h]
  · rw [updateAnimations_enabled sqrtf rand deltaTime s ha]
    show (updateKillEffect deltaTime _).mosquitoes.length ≤ 20
    rw [updateKillEffect_length, (beforeKillEffect_frame sqrtf rand deltaTime s).2.2.2.2]
    have hs := (updateMosquitoes_spawn sqrtf rand 0 s).1
    cases hsp : spawnDue s
    · rw [hsp] at hs
      simpa using le_trans hs (by simpa using h)
    · rw [hsp] at hs
      have hlt : s.mosquitoes.length < 20 := by
        unfold spawnDue at hsp
        simp only [Bool.and_eq_true, decide_eq_true_eq, MAX_MOSQUITOES] at hsp
        exact hsp.2
      have : (if true = true then 1 else 0) = 1 := rfl
      rw [this] at hs
      omega

/-- The keyboard callback never touches the mosquito pool. -/
theorem key_mosquitoes (c : Char) (x y : Int) (s s' : State) (h : key c x y s = some s') :
    s'.mosquitoes = s.mosquitoes := by
  unfold key at h
  simp only [] at h
  split at h
  all_goals first
    | (cases h; rfl)
    | cases h
    | (split at h
       · split at h <;> (cases h; rfl)
       · cases h; rfl)

/-- The mouse callback never touches the mosquito pool. -/
theorem mouse_mosquitoes (button state x y width height : Int) (s : State) :
    (mouse button state x y width height s).mosquitoes = s.mosquitoes := by
  unfold mouse
  simp only []
  split
  · split <;> rfl
  · rfl

/-- C8: in every state reachable from startup the mosquito pool size is at most 20; and one
`updateMosquitoes` call grows the pool by at most one mosquito, grows it only when the pool
size is below 20 and the incremented spawn timer has reached the interval 2.0, and leaves the
spawn timer at 0 whenever that spawn condition holds. -/
theorem pool_size_bounded (sqrtf : ℚ → ℚ) :
    (∀ s, Reachable sqrtf s → s.mosquitoes.length ≤ 20) ∧
    (∀ (rand : Nat → Nat) (k : Nat) (s : State),
      (updateMosquitoes sqrtf rand k s).1.mosquitoes.length ≤ s.mosquitoes.length + 1 ∧
      (s.mosquitoes.length < (updateMosquitoes sqrtf rand k s).1.mosquitoes.length →
        s.mosquitoes.length < 20 ∧ s.mosquitoSpawnTimer + 0.016 ≥ 2) ∧
      (s.mosquitoes.length < 20 ∧ s.mosquitoSpawnTimer + 0.016 ≥ 2 →
        (updateMosquitoes sqrtf rand k s).1.mosquitoSpawnTimer = 0)) := by
  have hdue : ∀ s : State, spawnDue s = true ↔
      (s.mosquitoes.length < 20 ∧ s.mosquitoSpawnTimer + 0.016 ≥ 2) := by
    intro s
    unfold spawnDue
    simp only [Bool.and_eq_true, decide_eq_true_eq, MAX_MOSQUITOES, mosquitoSpawnInterval]
    exact And.comm
  constructor
  · intro s hs
    induction hs with
    | start rand => exact Nat.le_of_ble_eq_true rfl
    | key c x y s s' _ hk ih => rw [key_mosquitoes c x y s s' hk]; exact ih
    | mouse button state x y width height s _ ih => rw [mouse_mosquitoes]; exact ih
    | motion x y width height s _ ih => exact ih
    | display rand deltaTime s _ _ ih => exact updateAnimations_length_le sqrtf rand deltaTime s ih
  · intro rand k s
    have hs := updateMosquitoes_spawn sqrtf rand k s
    refine ⟨?_, ?_, fun h => hs.2 ((hdue s).2 h)⟩
    · refine le_trans hs.1 ?_
      split <;> omega
    · intro hgrow
      apply (hdue s).1
      cases hsp : spawnDue s
      · have h1 := hs.1
        rw [hsp] at h1
        simp at h1
        omega
      · rfl

/-- Witness for C8: the state after the first 16 ms frame is reachable, so its pool is
within the bound; and from a pool of one mosquito whose spawn timer is one tick short of the
interval, the call grows the pool, which gives the spawn condition and the timer reset. -/
theorem pool_size_bounded_witness :
    (updateAnimations sqrtApprox zeroRand 0.016 (startup zeroRand)).mosquitoes.length ≤ 20 ∧
    (spawnReadyState.mosquitoes.length < 20 ∧ spawnReadyState.mosquitoSpawnTimer + 0.016 ≥ 2) ∧
    (updateMosquitoes sqrtApprox zeroRand 0 spawnReadyState).1.mosquitoSpawnTimer = 0 := by
  have hdue : spawnDue spawnReadyState = true := by
    unfold spawnDue
    simp only [Bool.and_eq_true, decide_eq_true_eq]
    refine ⟨?_, by decide⟩
    show (1.99 : ℚ) + 0.016 ≥ 2
    norm_num
  have hgrow : spawnReadyState.mosquitoes.length <
      (updateMosquitoes sqrtApprox zeroRand 0 spawnReadyState).1.mosquitoes.length := by
    rw [updateMosquitoes_length_noDeath sqrtApprox zeroRand 0 spawnReadyState rfl, hdue]
    decide
  have h := (pool_size_bounded sqrtApprox).2 zeroRand 0 spawnReadyState
  exact ⟨(pool_size_bounded sqrtApprox).1 _
      (Reachable.display zeroRand 0.016 _ (Reachable.start zeroRand) (by norm_num)),
    h.2.1 hgrow, h.2.2 (h.2.1 hgrow)⟩

/-! ## Kill animation -/

/-- Where the search loop of the kill key stops: an index of the pool whose mosquito is
alive. -/
theorem firstFrom_alive (pool : List Mosquito) (k i : Nat)
    (h : firstFrom (fun m => m.alive) pool k = some i) :
    k ≤ i ∧ i - k < pool.length ∧ (aliveFlags pool).getD (i - k) false = true := by
  induction pool generalizing k with
  | nil => cases h
  | cons m ms ih =>
    unfold firstFrom at h
    split at h
    · cases h
      refine ⟨le_refl _, by simp, ?_⟩
      simpa [aliveFlags] using ‹m.alive = true›
    · obtain ⟨h1, h2, h3⟩ := ih (k + 1) h
      have hik : i - k = (i - (k + 1)) + 1 := by omega
      refine ⟨by omega, by simp only [List.length_cons]; omega, ?_⟩
      rw [hik]
      simpa [aliveFlags] using h3

/-- The kill key while a kill animation is in flight. -/
theorem key_kill_busy (c : Char) (x y : Int) (s : State) (hc : c = 'd' ∨ c = 'D')
    (hk : s.isKillingMosquito = true) : key c x y s = some s := by
  rcases hc with rfl | rfl <;> simp [key, hk]

/-- The kill key when no kill animation is in flight and the search finds index `i`. -/
theorem key_kill_start (c : Char) (x y : Int) (s : State) (i : Nat) (hc : c = 'd' ∨ c = 'D')
    (hk : s.isKillingMosquito = false)
    (hi : firstFrom (fun m => m.alive) s.mosquitoes 0 = some i) :
    key c x y s = some { s with mosquitoToKill := (i : Int), isKillingMosquito := true,
                                killEffectTime := 0,
                                killedMosquitoes := s.killedMosquitoes + 1 } := by
  rcases hc with rfl | rfl <;> simp [key, hk, hi]

/-- An enabled frame while a kill is pending and the kill timer stays within 1.0: the kill
stays pending and no `alive` flag changes. -/
theorem tick_kill_pending (sqrtf : ℚ → ℚ) (rand : Nat → Nat) (deltaTime : ℚ) (t : State)
    (ha : t.isAnimating = true) (hk : t.isKillingMosquito = true)
    (hd : t.mosquitoDeathAnimation = false)
    (hp : ¬ t.killEffectTime + deltaTime * 2 > 1) :
    (updateAnimations sqrtf rand deltaTime t).isKillingMosquito = true ∧
    (updateAnimations sqrtf rand deltaTime t).killEffectTime
      = t.killEffectTime + deltaTime * 2 ∧
    (updateAnimations sqrtf rand deltaTime t).mosquitoToKill = t.mosquitoToKill ∧
    aliveFlags (updateAnimations sqrtf rand deltaTime t).mosquitoes
      = aliveFlags t.mosquitoes ++ (if spawnDue t then [true] else []) := by
  obtain ⟨h1, h2, h3, _, h5⟩ := beforeKillEffect_frame sqrtf rand deltaTime t
  rw [updateAnimations_enabled sqrtf rand deltaTime t ha]
  generalize updateWaterLevel deltaTime (updateSceneTransition deltaTime
      (updateInfoMessages deltaTime (updateMosquitoes sqrtf rand 0 t).1)) = s3 at h1 h2 h3 h5 ⊢
  have hke : updateKillEffect deltaTime s3 =
      { s3 with killEffectTime := s3.killEffectTime + deltaTime * 2 } := by
    unfold updateKillEffect
    rw [if_pos (h1.trans hk)]
    simp only []
    rw [if_neg (by rw [h2]; exact hp)]
  rw [hke]
  refine ⟨h1.trans hk, ?_, h3, ?_⟩
  · show s3.killEffectTime + deltaTime * 2 = _
    rw [h2]
  · show aliveFlags s3.mosquitoes = _
    rw [h5]
    exact (updateMosquitoes_noDeath sqrtf rand 0 t hd).1

/-- An enabled frame while a kill is pending on a valid index `i` and the kill timer exceeds
1.0: the kill state is cleared and the mosquito at index `i` is marked dead, in place. -/
theorem tick_kill_final (sqrtf : ℚ → ℚ) (rand : Nat → Nat) (deltaTime : ℚ) (t : State)
    (i : Nat) (ha : t.isAnimating = true) (hk : t.isKillingMosquito = true)
    (hd : t.mosquitoDeathAnimation = false) (hi : t.mosquitoToKill = (i : Int))
    (hlen : i < t.mosquitoes.length)
    (hp : t.killEffectTime + deltaTime * 2 > 1) :
    (updateAnimations sqrtf rand deltaTime t).isKillingMosquito = false ∧
    (updateAnimations sqrtf rand deltaTime t).killEffectTime = 0 ∧
    (updateAnimations sqrtf rand deltaTime t).mosquitoToKill = -1 ∧
    aliveFlags (updateAnimations sqrtf rand deltaTime t).mosquitoes
      = (aliveFlags t.mosquitoes ++ (if spawnDue t then [true] else [])).set i false := by
  obtain ⟨h1, h2, h3, _, h5⟩ := beforeKillEffect_frame sqrtf rand deltaTime t
  have hflags := (updateMosquitoes_noDeath sqrtf rand 0 t hd).1
  rw [← h5] at hflags
  rw [updateAnimations_enabled sqrtf rand deltaTime t ha]
  generalize updateWaterLevel deltaTime (updateSceneTransition deltaTime
      (updateInfoMessages deltaTime (updateMosquitoes sqrtf rand 0 t).1)) = s3
    at h1 h2 h3 h5 hflags ⊢
  have hlen3 : i < s3.mosquitoes.length := by
    have := congrArg List.length hflags
    simp only [aliveFlags, List.length_map, List.length_append] at this
    omega
  have hke : updateKillEffect deltaTime s3 =
      { s3 with isKillingMosquito := false, killEffectTime := 0,
                mosquitoes := setAlive s3.mosquitoes i false, mosquitoToKill := -1 } := by
    unfold updateKillEffect
    rw [if_pos (h1.trans hk)]
    simp only []
    rw [if_pos (by rw [h2]; exact hp)]
    unfold markKilled
    rw [h3, hi, if_pos ⟨Int.ofNat_nonneg i, by simpa using hlen3⟩]
    simp
  rw [hke]
  refine ⟨rfl, rfl, rfl, ?_⟩
  show aliveFlags (setAlive s3.mosquitoes i false) = _
  rw [setAlive_flags, hflags]

/-- The spawn condition does not hold in the state right after the kill key at startup. -/
theorem killingState_noSpawn : spawnDue killingState = false := by
  unfold spawnDue
  have h : ¬ (killingState.mosquitoSpawnTimer + 0.016 ≥ mosquitoSpawnInterval) := by
    show ¬ ((0 : ℚ) + 0.016 ≥ 2)
    norm_num
  rw [decide_eq_false h]
  rfl

/-- C9 fails as stated: right after the kill key at startup the targeted mosquito (index 0)
is still alive; and a single frame of 0.6 s, well short of 1.0 s of accumulated delta,
already ends the kill animation and marks it dead. -/
theorem kill_trigger_counterexample :
    startState.isKillingMosquito = false ∧
    key 'd' 0 0 startState = some killingState ∧
    killingState.mosquitoToKill = 0 ∧
    aliveFlags killingState.mosquitoes = [true] ∧
    (updateAnimations sqrtApprox zeroRand 0.6 killingState).isKillingMosquito = false ∧
    aliveFlags (updateAnimations sqrtApprox zeroRand 0.6 killingState).mosquitoes = [false] := by
  have hfin := tick_kill_final sqrtApprox zeroRand 0.6 killingState 0 rfl rfl rfl rfl
    (by decide) (by show (0 : ℚ) + 0.6 * 2 > 1; norm_num)
  refine ⟨rfl, rfl, rfl, rfl, hfin.1, ?_⟩
  rw [hfin.2.2.2, killingState_noSpawn]
  rfl

/-- C9 (amended): after a kill is triggered (key `'d'`/`'D'` with no kill animation active
and the search loop stopping at an alive mosquito `i`), the target is recorded and the kill
timer starts at 0, but the target is still alive and in the pool. In each later enabled frame
with a kill pending on a valid index `i` (and no death animation running) the kill timer
advances by `2 * deltaTime`: while the sum stays within 1.0 the kill stays pending and no
`alive` flag changes; in the frame where the sum exceeds 1.0, that is after more than 0.5 s
of accumulated delta, the mosquito at index `i` is marked dead at its place in the pool and
`isKillingMosquito`, `killEffectTime` and `mosquitoToKill` are reset. -/
theorem kill_animation_deferred (sqrtf : ℚ → ℚ) (rand : Nat → Nat) (deltaTime : ℚ)
    (c : Char) (x y : Int) (s t : State) (i : Nat) :
    (c = 'd' ∨ c = 'D' → s.isKillingMosquito = false →
      firstFrom (fun m => m.alive) s.mosquitoes 0 = some i →
      ∃ s1, key c x y s = some s1 ∧
        s1.isKillingMosquito = true ∧ s1.mosquitoToKill = (i : Int) ∧ s1.killEffectTime = 0 ∧
        s1.mosquitoes = s.mosquitoes ∧ i < s1.mosquitoes.length ∧
        (aliveFlags s1.mosquitoes).getD i false = true) ∧
    (t.isAnimating = true → t.isKillingMosquito = true → t.mosquitoDeathAnimation = false →
      t.mosquitoToKill = (i : Int) → i < t.mosquitoes.length →
      (¬ t.killEffectTime + deltaTime * 2 > 1 →
        (updateAnimations sqrtf rand deltaTime t).isKillingMosquito = true ∧
        (updateAnimations sqrtf rand deltaTime t).killEffectTime
          = t.killEffectTime + deltaTime * 2 ∧
        (updateAnimations sqrtf rand deltaTime t).mosquitoToKill = (i : Int) ∧
        aliveFlags (updateAnimations sqrtf rand deltaTime t).mosquitoes
          = aliveFlags t.mosquitoes ++ (if spawnDue t then [true] else [])) ∧
      (t.killEffectTime + deltaTime * 2 > 1 →
        (updateAnimations sqrtf rand deltaTime t).isKillingMosquito = false ∧
        (updateAnimations sqrtf rand deltaTime t).killEffectTime = 0 ∧
        (updateAnimations sqrtf rand deltaTime t).mosquitoToKill = -1 ∧
        aliveFlags (updateAnimations sqrtf rand deltaTime t).mosquitoes
          = (aliveFlags t.mosquitoes ++ (if spawnDue t then [true] else [])).set i false)) := by
  constructor
  · intro hc hk hi
    obtain ⟨_, h2, h3⟩ := firstFrom_alive s.mosquitoes 0 i hi
    exact ⟨_, key_kill_start c x y s i hc hk hi, rfl, rfl, rfl, rfl, h2, h3⟩
  · intro ha hk hd hi hlen
    constructor
    · intro hp
      have h := tick_kill_pending sqrtf rand deltaTime t ha hk hd hp
      exact ⟨h.1, h.2.1, h.2.2.1.trans hi, h.2.2.2⟩
    · intro hp
      exact tick_kill_final sqrtf rand deltaTime t i ha hk hd hi hlen hp

/-- Witness for C9 (amended): the kill key at startup targets mosquito 0; from the resulting
state a frame of 0.25 s keeps the kill pending and a frame of 0.6 s finalises it. -/
theorem kill_animation_deferred_witness :
    (∃ s1, key 'd' 0 0 startState = some s1 ∧
      s1.isKillingMosquito = true ∧ s1.mosquitoToKill = ((0 : Nat) : Int) ∧
      s1.killEffectTime = 0 ∧ s1.mosquitoes = startState.mosquitoes ∧
      0 < s1.mosquitoes.length ∧ (aliveFlags s1.mosquitoes).getD 0 false = true) ∧
    ((updateAnimations sqrtApprox zeroRand 0.25 killingState).isKillingMosquito = true ∧
      (updateAnimations sqrtApprox zeroRand 0.25 killingState).killEffectTime
        = killingState.killEffectTime + 0.25 * 2 ∧
      (updateAnimations sqrtApprox zeroRand 0.25 killingState).mosquitoToKill
        = ((0 : Nat) : Int) ∧
      aliveFlags (updateAnimations sqrtApprox zeroRand 0.25 killingState).mosquitoes
        = aliveFlags killingState.mosquitoes ++ (if spawnDue killingState then [true] else [])) ∧
    ((updateAnimations sqrtApprox zeroRand 0.6 killingState).isKillingMosquito = false ∧
      (updateAnimations sqrtApprox zeroRand 0.6 killingState).killEffectTime = 0 ∧
      (updateAnimations sqrtApprox zeroRand 0.6 killingState).mosquitoToKill = -1 ∧
      aliveFlags (updateAnimations sqrtApprox zeroRand 0.6 killingState).mosquitoes
        = (aliveFlags killingState.mosquitoes
            ++ (if spawnDue killingState then [true] else [])).set 0 false) :=
  ⟨(kill_animation_deferred sqrtApprox zeroRand 0.25 'd' 0 0 startState killingState 0).1
      (Or.inl rfl) rfl rfl,
   ((kill_animation_deferred sqrtApprox zeroRand 0.25 'd' 0 0 startState killingState 0).2
      rfl rfl rfl rfl (by decide)).1 (by show ¬ (0 : ℚ) + 0.25 * 2 > 1; norm_num),
   ((kill_animation_deferred sqrtApprox zeroRand 0.6 'd' 0 0 startState killingState 0).2
      rfl rfl rfl rfl (by decide)).2 (by show (0 : ℚ) + 0.6 * 2 > 1; norm_num)⟩

/-- C10: a kill request while another kill animation is in flight is ignored: for every
state with `isKillingMosquito` set, the key handler for `'d'` or `'D'` returns the state
unchanged (mosquito pool, `mosquitoToKill`, `killEffectTime`, `killedMosquitoes` and every
other variable). -/
theorem kill_request_ignored (c : Char) (x y : Int) (s : State) (hc : c = 'd' ∨ c = 'D')
    (hk : s.isKillingMosquito = true) :
    key c x y s = some s ∧
    (∀ s', key c x y s = some s' →
      s'.mosquitoes = s.mosquitoes ∧ s'.mosquitoToKill = s.mosquitoToKill ∧
      s'.killEffectTime = s.killEffectTime ∧ s'.killedMosquitoes = s.killedMosquitoes) := by
  have h := key_kill_busy c x y s hc hk
  refine ⟨h, ?_⟩
  intro s' hs'
  rw [h] at hs'
  cases hs'
  exact ⟨rfl, rfl, rfl, rfl⟩

/-- Witness for C10: the kill key pressed again while the kill started at startup is still
animating. -/
theorem kill_request_ignored_witness :
    key 'D' 0 0 killingState = some killingState :=
  (kill_request_ignored 'D' 0 0 killingState (Or.inr rfl) rfl).1

/-! ## Kill key -/

/-- The search loop of the kill key stops at the smallest index whose mosquito is alive. -/
theorem firstFrom_smallest (pool : List Mosquito) (k i : Nat) (hi : i < pool.length)
    (hal : (aliveFlags pool).getD i false = true)
    (hbefore : ∀ j, j < i → (aliveFlags pool).getD j false = false) :
    firstFrom (fun m => m.alive) pool k = some (k + i) := by
  induction pool generalizing k i with
  | nil => exact absurd hi (Nat.not_lt_zero _)
  | cons m ms ih =>
    unfold firstFrom
    cases i with
    | zero =>
      have hm : m.alive = true := hal
      rw [if_pos hm]
      rfl
    | succ i =>
      have hm : m.alive = false := hbefore 0 (Nat.succ_pos i)
      have hne : ¬ (m.alive = true) := by rw [hm]; exact Bool.false_ne_true
      rw [if_neg hne]
      have h := ih (k + 1) i (Nat.lt_of_succ_lt_succ hi) hal
        (fun j hj => hbefore (j + 1) (Nat.succ_lt_succ hj))
      rw [h]
      congr 1
      omega

/-- The search loop of the kill key finds nothing when no mosquito of the pool is alive. -/
theorem firstFrom_none (pool : List Mosquito) (k : Nat)
    (hdead : ∀ j, j < pool.length → (aliveFlags pool).getD j false = false) :
    firstFrom (fun m => m.alive) pool k = none := by
  induction pool generalizing k with
  | nil => rfl
  | cons m ms ih =>
    unfold firstFrom
    have hm : m.alive = false := hdead 0 (Nat.succ_pos _)
    have hne : ¬ (m.alive = true) := by rw [hm]; exact Bool.false_ne_true
    rw [if_neg hne]
    exact ih (k + 1) (fun j hj => hdead (j + 1) (Nat.succ_lt_succ hj))

/-- The kill key when no kill animation is in flight and the search finds nothing. -/
theorem key_kill_nothing (c : Char) (x y : Int) (s : State) (hc : c = 'd' ∨ c = 'D')
    (hk : s.isKillingMosquito = false)
    (hn : firstFrom (fun m => m.alive) s.mosquitoes 0 = none) :
    key c x y s = some s := by
  rcases hc with rfl | rfl <;> simp [key, hk, hn]

/-- C11: for every state with no kill animation active, the kill key (`'d'` or `'D'`) sets
`mosquitoToKill` to the smallest index whose mosquito is alive, sets `isKillingMosquito`,
resets `killEffectTime` to 0 and increments `killedMosquitoes` by exactly one, leaving every
other variable as it was; if no mosquito is alive (in particular if the pool is empty) the
state is unchanged. -/
theorem kill_key_selects_first_alive (c : Char) (x y : Int) (s : State)
    (hc : c = 'd' ∨ c = 'D') (hk : s.isKillingMosquito = false) :
    (∀ i, i < s.mosquitoes.length → (aliveFlags s.mosquitoes).getD i false = true →
      (∀ j, j < i → (aliveFlags s.mosquitoes).getD j false = false) →
      key c x y s = some { s with mosquitoToKill := (i : Int), isKillingMosquito := true,
                                  killEffectTime := 0,
                                  killedMosquitoes := s.killedMosquitoes + 1 }) ∧
    ((∀ j, j < s.mosquitoes.length → (aliveFlags s.mosquitoes).getD j false = false) →
      key c x y s = some s) ∧
    (s.mosquitoes = [] → key c x y s = some s) := by
  refine ⟨?_, ?_, ?_⟩
  · intro i hi hal hbefore
    have h := firstFrom_smallest s.mosquitoes 0 i hi hal hbefore
    rw [Nat.zero_add] at h
    exact key_kill_start c x y s i hc hk h
  · intro hdead
    exact key_kill_nothing c x y s hc hk (firstFrom_none s.mosquitoes 0 hdead)
  · intro hnil
    apply key_kill_nothing c x y s hc hk
    rw [hnil]
    rfl

/-- Witness for C11: at startup the kill key targets mosquito 0; with the only mosquito
already dead, and with an empty pool, it changes nothing. -/
theorem kill_key_selects_first_alive_witness :
    key 'd' 0 0 startState =
      some { startState with mosquitoToKill := ((0 : Nat) : Int), isKillingMosquito := true,
                             killEffectTime := 0,
                             killedMosquitoes := startState.killedMosquitoes + 1 } ∧
    key 'D' 0 0 allDeadState = some allDeadState ∧
    key 'd' 0 0 staticInit = some staticInit :=
  ⟨(kill_key_selects_first_alive 'd' 0 0 startState (Or.inl rfl) rfl).1 0
      (by decide) (by decide) (by decide),
   (kill_key_selects_first_alive 'D' 0 0 allDeadState (Or.inr rfl) rfl).2.1 (by decide),
   (kill_key_selects_first_alive 'd' 0 0 staticInit (Or.inl rfl) rfl).2.2 rfl⟩

/-! ## Mosquito positions -/

/-- The expression `static_cast<float>(rand()) / RAND_MAX` lies in `[0, 1]`. -/
theorem randUnit_range (rand : Nat → Nat) (k : Nat) :
    0 ≤ randUnit rand k ∧ randUnit rand k ≤ 1 := by
  unfold randUnit
  have hle : randInt rand k ≤ RAND_MAX := by
    unfold randInt
    exact Nat.lt_succ_iff.mp (Nat.mod_lt _ (Nat.succ_pos _))
  have hpos : (0 : ℚ) < (RAND_MAX : ℚ) := by
    unfold RAND_MAX
    norm_num
  have hq : ((randInt rand k : ℕ) : ℚ) ≤ (RAND_MAX : ℚ) := by exact_mod_cast hle
  constructor
  · exact div_nonneg (Nat.cast_nonneg _) (le_of_lt hpos)
  · exact (div_le_one hpos).2 hq

/-- The bounce of one coordinate (main.cpp:700-707) leaves it inside `[lo, hi]`. -/
theorem bounce_range (v lo hi : ℚ) (h : lo ≤ hi) :
    lo ≤ (if (decide (v < lo) || decide (v > hi)) = true then (if v < lo then lo else hi) else v) ∧
    (if (decide (v < lo) || decide (v > hi)) = true then (if v < lo then lo else hi) else v) ≤ hi := by
  by_cases h1 : v < lo
  · simp [h1, h]
  · by_cases h2 : v > hi
    · simp [h1, h2, h]
    · simp only [h1, h2, decide_False, Bool.or_self, Bool.false_eq_true, if_false]
      exact ⟨not_lt.mp h1, not_lt.mp h2⟩

/-- The move-and-bounce step puts a live mosquito inside the viewport bounds and leaves a
dead one where it was. -/
theorem moveMosquito_inBounds (sqrtf : ℚ → ℚ) (rand : Nat → Nat) (k : Nat) (m : Mosquito)
    (h : InBounds m) : InBounds (moveMosquito sqrtf rand k m).1 := by
  unfold moveMosquito
  split
  · exact h
  · have hx := bounce_range (m.x + m.speedX) (-4.5) 4.5 (by norm_num)
    have hy := bounce_range (m.y + m.speedY) (-2.5) 4.5 (by norm_num)
    exact ⟨hx.1, hx.2, hy.1, hy.2⟩

/-- The per-mosquito loop keeps every mosquito inside the viewport bounds. -/
theorem moveAll_inBounds (sqrtf : ℚ → ℚ) (rand : Nat → Nat) (k : Nat) (pool : List Mosquito)
    (h : ∀ m ∈ pool, InBounds m) : ∀ m ∈ (moveAll sqrtf rand k pool).1, InBounds m := by
  induction pool generalizing k with
  | nil => intro m hm; cases hm
  | cons a rest ih =>
    intro m hm
    have hm2 : m ∈ (moveMosquito sqrtf rand k a).1 ::
        (moveAll sqrtf rand (moveMosquito sqrtf rand k a).2 rest).1 := hm
    rcases List.mem_cons.mp hm2 with hma | hmr
    · rw [hma]
      exact moveMosquito_inBounds sqrtf rand k a (h a (List.mem_cons_self _ _))
    · exact ih _ (fun b hb => h b (List.mem_cons_of_mem _ hb)) m hmr

/-- The spawned mosquito starts inside the viewport bounds. -/
theorem spawnMosquito_inBounds (rand : Nat → Nat) (k : Nat) :
    InBounds (spawnMosquito rand k) := by
  obtain ⟨h0, h1⟩ := randUnit_range rand k
  obtain ⟨g0, g1⟩ := randUnit_range rand (k + 1)
  show -4.5 ≤ -4.5 + randUnit rand k * 9 ∧ -4.5 + randUnit rand k * 9 ≤ 4.5 ∧
    -2.5 ≤ -2.5 + randUnit rand (k + 1) * 7 ∧ -2.5 + randUnit rand (k + 1) * 7 ≤ 4.5
  refine ⟨?_, ?_, ?_, ?_⟩ <;> norm_num <;> linarith

/-- A mosquito built by the loop of `initMosquitoes` starts inside the viewport bounds. -/
theorem randomMosquito_inBounds (rand : Nat → Nat) (k : Nat) :
    InBounds (randomMosquito rand k) := by
  obtain ⟨h0, h1⟩ := randUnit_range rand k
  obtain ⟨g0, g1⟩ := randUnit_range rand (k + 1)
  show -4.5 ≤ -4 + randUnit rand k * 8 ∧ -4 + randUnit rand k * 8 ≤ 4.5 ∧
    -2.5 ≤ -2 + randUnit rand (k + 1) * 6 ∧ -2 + randUnit rand (k + 1) * 6 ≤ 4.5
  refine ⟨?_, ?_, ?_, ?_⟩ <;> norm_num <;> linarith

/-- The loop of `initMosquitoes` appends `n` mosquitoes, all alive and inside the bounds. -/
theorem initMosquitoesLoop_spec (rand : Nat → Nat) (n k : Nat) (acc : List Mosquito) :
    ∃ added : List Mosquito, (initMosquitoesLoop rand n k acc).1 = acc ++ added ∧
      added.length = n ∧ ∀ m ∈ added, m.alive = true ∧ InBounds m := by
  induction n generalizing k acc with
  | zero => exact ⟨[], by simp [initMosquitoesLoop], rfl, fun m hm => by cases hm⟩
  | succ n ih =>
    obtain ⟨added, h1, h2, h3⟩ := ih (k + 6) (acc ++ [randomMosquito rand k])
    refine ⟨randomMosquito rand k :: added, ?_, by simp [h2], ?_⟩
    · show (initMosquitoesLoop rand n (k + 6) (acc ++ [randomMosquito rand k])).1 = _
      rw [h1]
      simp
    · intro m hm
      rcases List.mem_cons.mp hm with hma | hmr
      · rw [hma]
        exact ⟨rfl, randomMosquito_inBounds rand k⟩
      · exact h3 m hmr

/-- Assigning an `alive` flag moves no mosquito. -/
theorem setAlive_inBounds (pool : List Mosquito) (i : Nat) (b : Bool)
    (h : ∀ m ∈ pool, InBounds m) : ∀ m ∈ setAlive pool i b, InBounds m := by
  induction pool generalizing i with
  | nil => intro m hm; cases hm
  | cons a rest ih =>
    cases i with
    | zero =>
      intro m hm
      rcases List.mem_cons.mp hm with hma | hmr
      · rw [hma]
        exact h a (List.mem_cons_self _ _)
      · exact h m (List.mem_cons_of_mem _ hmr)
    | succ i =>
      intro m hm
      rcases List.mem_cons.mp hm with hma | hmr
      · rw [hma]
        exact h a (List.mem_cons_self _ _)
      · exact ih i (fun b hb => h b (List.mem_cons_of_mem _ hb)) m hmr

/-- The bounds-checked kill assignment moves no mosquito. -/
theorem markKilled_inBounds (i : Int) (pool : List Mosquito)
    (h : ∀ m ∈ pool, InBounds m) : ∀ m ∈ markKilled i pool, InBounds m := by
  unfold markKilled
  split
  · exact setAlive_inBounds pool _ false h
  · exact h

/-- The kill-effect block moves no mosquito. -/
theorem updateKillEffect_inBounds (deltaTime : ℚ) (s : State)
    (h : ∀ m ∈ s.mosquitoes, InBounds m) :
    ∀ m ∈ (updateKillEffect deltaTime s).mosquitoes, InBounds m := by
  unfold updateKillEffect
  split
  · simp only []
    split
    · exact markKilled_inBounds _ _ h
    · exact h
  · exact h

/-- One `updateMosquitoes` call keeps every mosquito inside the viewport bounds. -/
theorem updateMosquitoes_inBounds (sqrtf : ℚ → ℚ) (rand : Nat → Nat) (k : Nat) (s : State)
    (h : ∀ m ∈ s.mosquitoes, InBounds m) :
    ∀ m ∈ (updateMosquitoes sqrtf rand k s).1.mosquitoes, InBounds m := by
  have hpool : ∀ m ∈ (if spawnDue s then s.mosquitoes ++ [spawnMosquito rand k]
      else s.mosquitoes), InBounds m := by
    intro m hm
    cases hsp : spawnDue s
    · rw [hsp] at hm
      exact h m hm
    · rw [hsp] at hm
      rcases List.mem_append.mp hm with h1 | h1
      · exact h m h1
      · rw [List.mem_singleton.mp h1]
        exact spawnMosquito_inBounds rand k
  have hmoved := fun k1 => moveAll_inBounds sqrtf rand k1 _ hpool
  unfold updateMosquitoes
  simp only []
  split
  · split
    · intro m hm
      exact hmoved _ m (List.mem_of_mem_filter hm)
    · exact hmoved _
  · exact hmoved _

/-- One `updateAnimations` call keeps every mosquito inside the viewport bounds. -/
theorem updateAnimations_inBounds (sqrtf : ℚ → ℚ) (rand : Nat → Nat) (deltaTime : ℚ)
    (s : State) (h : ∀ m ∈ s.mosquitoes, InBounds m) :
    ∀ m ∈ (updateAnimations sqrtf rand deltaTime s).mosquitoes, InBounds m := by
  cases ha : s.isAnimating
  · unfold updateAnimations
    simpa [ha] using h
  · rw [updateAnimations_enabled sqrtf rand deltaTime s ha]
    show ∀ m ∈ (updateKillEffect deltaTime _).mosquitoes, InBounds m
    apply updateKillEffect_inBounds
    rw [(beforeKillEffect_frame sqrtf rand deltaTime s).2.2.2.2]
    exact updateMosquitoes_inBounds sqrtf rand 0 s h

/-- The pool built by `initMosquitoes` lies inside the viewport bounds. -/
theorem initMosquitoes_inBounds (rand : Nat → Nat) (k : Nat) (s : State) :
    ∀ m ∈ (initMosquitoes rand k s).1.mosquitoes, InBounds m := by
  unfold initMosquitoes
  split
  · intro m hm
    rw [List.mem_singleton.mp hm]
    unfold InBounds
    norm_num
  · obtain ⟨added, h1, _, h3⟩ := initMosquitoesLoop_spec rand MOSQUITO_COUNT k []
    intro m hm
    have hm2 : m ∈ (initMosquitoesLoop rand MOSQUITO_COUNT k []).1 := hm
    rw [h1, List.nil_append] at hm2
    exact (h3 m hm2).2

/-- C12: in every state reachable from startup, for every sequence of random draws, every
mosquito in the pool has `x` in `[-4.5, 4.5]` and `y` in `[-2.5, 4.5]`: `initMosquitoes`
and the spawn step establish the bounds and `updateMosquitoes` (spawn, move-and-bounce,
removal) preserves them. -/
theorem positions_in_bounds (sqrtf : ℚ → ℚ) :
    (∀ s, Reachable sqrtf s → ∀ m ∈ s.mosquitoes, InBounds m) ∧
    (∀ (rand : Nat → Nat) (k : Nat) (s : State),
      ∀ m ∈ (initMosquitoes rand k s).1.mosquitoes, InBounds m) ∧
    (∀ (rand : Nat → Nat) (k : Nat), InBounds (spawnMosquito rand k)) ∧
    (∀ (rand : Nat → Nat) (k : Nat) (s : State), (∀ m ∈ s.mosquitoes, InBounds m) →
      ∀ m ∈ (updateMosquitoes sqrtf rand k s).1.mosquitoes, InBounds m) := by
  refine ⟨?_, initMosquitoes_inBounds, spawnMosquito_inBounds,
    updateMosquitoes_inBounds sqrtf⟩
  intro s hs
  induction hs with
  | start rand => exact initMosquitoes_inBounds rand 0 (initInfoMessages staticInit)
  | key c x y s s' _ hk ih => rw [key_mosquitoes c x y s s' hk]; exact ih
  | mouse button state x y width height s _ ih => rw [mouse_mosquitoes]; exact ih
  | motion x y width height s _ ih => exact ih
  | display rand deltaTime s _ _ ih => exact updateAnimations_inBounds sqrtf rand deltaTime s ih

/-- Witness for C12: the state after the first 16 ms frame is reachable, and one
`updateMosquitoes` call on the startup pool keeps it inside the bounds. -/
theorem positions_in_bounds_witness :
    (∀ m ∈ (updateAnimations sqrtApprox zeroRand 0.016 (startup zeroRand)).mosquitoes,
      InBounds m) ∧
    (∀ m ∈ (updateMosquitoes sqrtApprox zeroRand 0 startState).1.mosquitoes, InBounds m) :=
  ⟨(positions_in_bounds sqrtApprox).1 _
      (Reachable.display zeroRand 0.016 _ (Reachable.start zeroRand) (by norm_num)),
   (positions_in_bounds sqrtApprox).2.2.2 zeroRand 0 startState (by
      intro m hm
      have hm2 : m ∈ [(⟨-2, 2, 0.02, -0.01, 0, true⟩ : Mosquito)] := hm
      rw [List.mem_singleton.mp hm2]
      unfold InBounds
      norm_num)⟩

/-! ## Spawn velocity and pool initialisation -/

/-- C13 fails as stated: with the draws at the middle of the range the spawned mosquito has
`speedX = -1/214748364700`, whose magnitude is below 0.01, outside the band `[0.01, 0.04]`. -/
theorem spawn_speed_counterexample :
    (spawnMosquito halfRand 0).speedX = -1 / 214748364700 ∧
    |(spawnMosquito halfRand 0).speedX| < 0.01 ∧
    ¬ (0.01 ≤ |(spawnMosquito halfRand 0).speedX| ∧ |(spawnMosquito halfRand 0).speedX| ≤ 0.04) := by
  have hv : (spawnMosquito halfRand 0).speedX = -1 / 214748364700 := by
    show ((((halfRand (0 + 2) % (RAND_MAX + 1) : ℕ) : ℚ) / (RAND_MAX : ℚ)) - 0.5) * mosquitoSpeed
      = -1 / 214748364700
    unfold halfRand RAND_MAX mosquitoSpeed
    norm_num
  have hlt : |(spawnMosquito halfRand 0).speedX| < 0.01 := by
    rw [hv, abs_lt]
    constructor <;> norm_num
  exact ⟨hv, hlt, fun h => absurd h.1 (not_le.mpr hlt)⟩

/-- C13 (amended): for every random draw, each velocity component of the mosquito appended by
the spawn step of `updateMosquitoes` is `(rand() / RAND_MAX - 0.5) * mosquitoSpeed` with
`mosquitoSpeed = 0.02`, so `|speedX|` and `|speedY|` are each at most 0.01. -/
theorem spawn_speed_bound (rand : Nat → Nat) (k : Nat) :
    (spawnMosquito rand k).speedX = (randUnit rand (k + 2) - 0.5) * 0.02 ∧
    (spawnMosquito rand k).speedY = (randUnit rand (k + 3) - 0.5) * 0.02 ∧
    |(spawnMosquito rand k).speedX| ≤ 0.01 ∧ |(spawnMosquito rand k).speedY| ≤ 0.01 := by
  obtain ⟨h0, h1⟩ := randUnit_range rand (k + 2)
  obtain ⟨g0, g1⟩ := randUnit_range rand (k + 3)
  have hx : (spawnMosquito rand k).speedX = (randUnit rand (k + 2) - 0.5) * 0.02 := rfl
  have hy : (spawnMosquito rand k).speedY = (randUnit rand (k + 3) - 0.5) * 0.02 := rfl
  refine ⟨hx, hy, ?_, ?_⟩
  · rw [hx, abs_le]
    constructor <;> norm_num <;> linarith
  · rw [hy, abs_le]
    constructor <;> norm_num <;> linarith

/-- The pool built by `initMosquitoes` depends on the scene index and the draws only. -/
theorem initMosquitoes_pool (rand : Nat → Nat) (k : Nat) (s : State) :
    (initMosquitoes rand k s).1.mosquitoes =
      if s.currentScene = 0 then [⟨-2, 2, 0.02, -0.01, 0, true⟩]
      else (initMosquitoesLoop rand MOSQUITO_COUNT k []).1 := by
  unfold initMosquitoes
  split <;> rfl

/-- C14: `initMosquitoes` discards the previous pool (its result does not depend on it) and,
when `currentScene` is 0, leaves exactly one alive mosquito at position `(-2.0, 2.0)` with
velocity `(0.02, -0.01)` and wing angle 0; for every other scene and every sequence of random
draws it leaves exactly 10 mosquitoes, all alive. -/
theorem initMosquitoes_spec (rand : Nat → Nat) (k : Nat) (s : State) :
    (s.currentScene = 0 →
      (initMosquitoes rand k s).1.mosquitoes = [⟨-2, 2, 0.02, -0.01, 0, true⟩]) ∧
    (s.currentScene ≠ 0 →
      (initMosquitoes rand k s).1.mosquitoes.length = 10 ∧
      ∀ m ∈ (initMosquitoes rand k s).1.mosquitoes, m.alive = true) ∧
    (∀ previous : List Mosquito,
      (initMosquitoes rand k { s with mosquitoes := previous }).1.mosquitoes
        = (initMosquitoes rand k s).1.mosquitoes) := by
  refine ⟨?_, ?_, ?_⟩
  · intro h0
    unfold initMosquitoes
    rw [if_pos h0]
  · intro hne
    obtain ⟨added, h1, h2, h3⟩ := initMosquitoesLoop_spec rand MOSQUITO_COUNT k []
    have hpool : (initMosquitoes rand k s).1.mosquitoes = added := by
      unfold initMosquitoes
      rw [if_neg hne]
      show (initMosquitoesLoop rand MOSQUITO_COUNT k []).1 = added
      rw [h1, List.nil_append]
    rw [hpool]
    exact ⟨h2, fun m hm => (h3 m hm).1⟩
  · intro previous
    rw [initMosquitoes_pool, initMosquitoes_pool]

/-- Witness for C14: scene 0 at startup and scene 8. -/
theorem initMosquitoes_spec_witness :
    (initMosquitoes zeroRand 0 startState).1.mosquitoes = [⟨-2, 2, 0.02, -0.01, 0, true⟩] ∧
    ((initMosquitoes zeroRand 0 lastSceneState).1.mosquitoes.length = 10 ∧
      ∀ m ∈ (initMosquitoes zeroRand 0 lastSceneState).1.mosquitoes, m.alive = true) :=
  ⟨(initMosquitoes_spec zeroRand 0 startState).1 rfl,
   (initMosquitoes_spec zeroRand 0 lastSceneState).2.1 (by decide)⟩

/-! ## Order of the updates within one frame -/

/-- The kill-effect block assigns only the kill state and the pool. -/
theorem updateKillEffect_frame (deltaTime : ℚ) (s : State) :
    ∃ killing time pool target,
      updateKillEffect deltaTime s =
        { s with isKillingMosquito := killing, killEffectTime := time, mosquitoes := pool,
                 mosquitoToKill := target } := by
  unfold updateKillEffect
  split
  · simp only []
    split
    · exact ⟨_, _, _, _, rfl⟩
    · exact ⟨_, _, _, _, rfl⟩
  · exact ⟨_, _, _, _, rfl⟩

/-- What `updateInfoMessages` does to the scene controller's part of the state depends on
that part only. -/
theorem updateInfoMessages_sceneView (deltaTime : ℚ) (s t : State)
    (h : sceneView s = sceneView t) :
    sceneView (updateInfoMessages deltaTime s) = sceneView (updateInfoMessages deltaTime t) := by
  simp only [sceneView, Prod.mk.injEq] at h
  obtain ⟨h1, h2, h3, h4⟩ := h
  by_cases hf : s.messageTimer + deltaTime ≥ 5
  · rw [updateInfoMessages_fire deltaTime s hf,
      updateInfoMessages_fire deltaTime t (by rw [← h3]; exact hf)]
    simp only [sceneView, h1, h2, h4]
  · rw [updateInfoMessages_hold deltaTime s hf,
      updateInfoMessages_hold deltaTime t (by rw [← h3]; exact hf)]
    simp only [sceneView, h1, h2, h3, h4]

/-- What `updateSceneTransition` does to the scene controller's part of the state depends on
that part only. -/
theorem updateSceneTransition_sceneView (deltaTime : ℚ) (s t : State)
    (h : sceneView s = sceneView t) :
    sceneView (updateSceneTransition deltaTime s)
      = sceneView (updateSceneTransition deltaTime t) := by
  simp only [sceneView, Prod.mk.injEq] at h
  obtain ⟨h1, h2, h3, h4⟩ := h
  by_cases hf : s.sceneTimer + deltaTime ≥ 15
  · rw [updateSceneTransition_fire deltaTime s hf,
      updateSceneTransition_fire deltaTime t (by rw [← h4]; exact hf)]
    simp only [sceneView, initInfoMessages, h1, h3]
  · rw [updateSceneTransition_hold deltaTime s hf,
      updateSceneTransition_hold deltaTime t (by rw [← h4]; exact hf)]
    simp only [sceneView, h1, h2, h3, h4]

/-- The scene controller's part of the state after an enabled frame is the one produced by
`updateInfoMessages` followed by `updateSceneTransition`. -/
theorem updateAnimations_sceneView (sqrtf : ℚ → ℚ) (rand : Nat → Nat) (deltaTime : ℚ)
    (s : State) (ha : s.isAnimating = true) :
    sceneView (updateAnimations sqrtf rand deltaTime s)
      = sceneView (updateSceneTransition deltaTime (updateInfoMessages deltaTime s)) := by
  rw [updateAnimations_enabled sqrtf rand deltaTime s ha]
  obtain ⟨t1, p1, d1, a1, h1⟩ := updateMosquitoes_frame sqrtf rand 0 s
  have hview : sceneView (updateMosquitoes sqrtf rand 0 s).1 = sceneView s := by
    rw [h1]
    rfl
  have h2 := updateSceneTransition_sceneView deltaTime _ _
    (updateInfoMessages_sceneView deltaTime _ _ hview)
  rw [← h2]
  obtain ⟨w, r, hw⟩ := updateWaterLevel_frame deltaTime (updateSceneTransition deltaTime
    (updateInfoMessages deltaTime (updateMosquitoes sqrtf rand 0 s).1))
  obtain ⟨kk, kt, kp, ki, hk⟩ := updateKillEffect_frame deltaTime
    (updateWaterLevel deltaTime (updateSceneTransition deltaTime
      (updateInfoMessages deltaTime (updateMosquitoes sqrtf rand 0 s).1)))
  show sceneView (updateKillEffect deltaTime _) = _
  rw [hk, hw]
  rfl

/-- C15 fails as stated: with 14 s on the scene timer and 4.5 s on the message timer, a 1 s
frame fires both timers; `updateAnimations` leaves message 0 of the rebuilt pool active,
while running `updateSceneTransition` first and `updateInfoMessages` second would leave
message 1 active. -/
theorem update_order_counterexample :
    bothTimersState.isAnimating = true ∧
    OnlyActiveAt (updateAnimations sqrtApprox zeroRand 1 bothTimersState).infoMessages 0 ∧
    OnlyActiveAt
      (updateInfoMessages 1 (updateSceneTransition 1 bothTimersState)).infoMessages 1 ∧
    (updateAnimations sqrtApprox zeroRand 1 bothTimersState).infoMessages ≠
      (updateInfoMessages 1 (updateSceneTransition 1 bothTimersState)).infoMessages := by
  have hm : bothTimersState.messageTimer + 1 ≥ 5 := by
    show (4.5 : ℚ) + 1 ≥ 5
    norm_num
  have hs : bothTimersState.sceneTimer + 1 ≥ 15 := by
    show (14 : ℚ) + 1 ≥ 15
    norm_num
  have hcode : (updateAnimations sqrtApprox zeroRand 1 bothTimersState).infoMessages
      = scenePool 1 := by
    have hv := updateAnimations_sceneView sqrtApprox zeroRand 1 bothTimersState rfl
    have hv2 := congrArg (fun v => v.2.1) hv
    simp only [sceneView] at hv2
    rw [hv2, updateInfoMessages_fire 1 bothTimersState hm,
      updateSceneTransition_fire 1 _ (by exact hs)]
    rfl
  have hspec : (updateInfoMessages 1 (updateSceneTransition 1 bothTimersState)).infoMessages
      = rotateLoop (scenePool 1) 0 (scenePool 1).length := by
    rw [updateSceneTransition_fire 1 bothTimersState hs,
      updateInfoMessages_fire 1 _ (by show (4.5 : ℚ) + 1 ≥ 5; norm_num)]
    rfl
  rw [hcode, hspec]
  exact ⟨rfl, by decide, by decide, by decide⟩

/-- C15 (amended): within one update tick message rotation is applied before the scene
transition: for every state with animation enabled and every `deltaTime`, the `currentScene`,
message pool, message timer and scene timer produced by `updateAnimations` equal those
obtained by running `updateInfoMessages` first and `updateSceneTransition` second; in a tick
where both the 5 s and the 15 s timers fire, the rotated pool is discarded by the rebuild, so
the pool is the fresh pool of the new scene. -/
theorem update_order (sqrtf : ℚ → ℚ) (rand : Nat → Nat) (deltaTime : ℚ) (s : State)
    (ha : s.isAnimating = true) :
    sceneView (updateAnimations sqrtf rand deltaTime s)
      = sceneView (updateSceneTransition deltaTime (updateInfoMessages deltaTime s)) ∧
    (s.messageTimer + deltaTime ≥ 5 → s.sceneTimer + deltaTime ≥ 15 →
      (updateAnimations sqrtf rand deltaTime s).infoMessages
        = scenePool (Int.tmod (s.currentScene + 1) 9) ∧
      (updateAnimations sqrtf rand deltaTime s).messageTimer = 0 ∧
      (updateAnimations sqrtf rand deltaTime s).sceneTimer = 0) := by
  have hv := updateAnimations_sceneView sqrtf rand deltaTime s ha
  refine ⟨hv, ?_⟩
  intro hm hs
  have h1 := congrArg (fun v => v.2.1) hv
  have h2 := congrArg (fun v => v.2.2.1) hv
  have h3 := congrArg (fun v => v.2.2.2) hv
  simp only [sceneView] at h1 h2 h3
  rw [h1, h2, h3, updateInfoMessages_fire deltaTime s hm,
    updateSceneTransition_fire deltaTime _ (by exact hs)]
  exact ⟨rfl, rfl, rfl⟩

/-- Witness for C15 (amended): the state with both timers about to fire and a 1 s frame. -/
theorem update_order_witness :
    sceneView (updateAnimations sqrtApprox zeroRand 1 bothTimersState)
      = sceneView (updateSceneTransition 1 (updateInfoMessages 1 bothTimersState)) ∧
    ((updateAnimations sqrtApprox zeroRand 1 bothTimersState).infoMessages
        = scenePool (Int.tmod (bothTimersState.currentScene + 1) 9) ∧
      (updateAnimations sqrtApprox zeroRand 1 bothTimersState).messageTimer = 0 ∧
      (updateAnimations sqrtApprox zeroRand 1 bothTimersState).sceneTimer = 0) :=
  ⟨(update_order sqrtApprox zeroRand 1 bothTimersState rfl).1,
   (update_order sqrtApprox zeroRand 1 bothTimersState rfl).2
     (by show (4.5 : ℚ) + 1 ≥ 5; norm_num) (by show (14 : ℚ) + 1 ≥ 15; norm_num)⟩

/-! ## Frozen state, effect scalars and hit testing -/

/-- C16: when animation is disabled (`isAnimating` false), `updateAnimations` returns the
state unchanged for every `deltaTime`, every draw stream and every `sqrt`: mosquito pool,
spawn timer, message pool and timer, scene index and timer, water level and direction, kill
state, ripple/life-cycle/pulse/rain scalars, the raining flag and every other variable. -/
theorem updateAnimations_disabled (sqrtf : ℚ → ℚ) (rand : Nat → Nat) (deltaTime : ℚ)
    (s : State) (h : s.isAnimating = false) :
    updateAnimations sqrtf rand deltaTime s = s := by
  unfold updateAnimations
  simp [h]

/-- Witness for C16: the startup state with animation disabled and a 20 s frame. -/
theorem updateAnimations_disabled_witness :
    updateAnimations sqrtApprox zeroRand 20 pausedState = pausedState :=
  updateAnimations_disabled sqrtApprox zeroRand 20 pausedState rfl

/-- `updateMosquitoes` leaves the effect scalars and the raining flag alone. -/
theorem updateMosquitoes_effectView (sqrtf : ℚ → ℚ) (rand : Nat → Nat) (k : Nat) (s : State) :
    effectView (updateMosquitoes sqrtf rand k s).1 = effectView s := by
  obtain ⟨t1, p1, d1, a1, h1⟩ := updateMosquitoes_frame sqrtf rand k s
  rw [h1]
  rfl

/-- `updateInfoMessages` leaves the effect scalars and the raining flag alone. -/
theorem updateInfoMessages_effectView (deltaTime : ℚ) (s : State) :
    effectView (updateInfoMessages deltaTime s) = effectView s := by
  obtain ⟨t2, p2, h2⟩ := updateInfoMessages_frame deltaTime s
  rw [h2]
  rfl

/-- `updateSceneTransition` leaves the effect scalars and the raining flag alone. -/
theorem updateSceneTransition_effectView (deltaTime : ℚ) (s : State) :
    effectView (updateSceneTransition deltaTime s) = effectView s := by
  obtain ⟨t3, c3, p3, h3⟩ := updateSceneTransition_frame deltaTime s
  rw [h3]
  rfl

/-- The water block leaves the effect scalars and the raining flag alone. -/
theorem updateWaterLevel_effectView (deltaTime : ℚ) (s : State) :
    effectView (updateWaterLevel deltaTime s) = effectView s := by
  obtain ⟨w, r, hw⟩ := updateWaterLevel_frame deltaTime s
  rw [hw]
  rfl

/-- The kill-effect block leaves the effect scalars and the raining flag alone. -/
theorem updateKillEffect_effectView (deltaTime : ℚ) (s : State) :
    effectView (updateKillEffect deltaTime s) = effectView s := by
  obtain ⟨kk, kt, kp, ki, hk⟩ := updateKillEffect_frame deltaTime s
  rw [hk]
  rfl

/-- The state entering the last block of an enabled `updateAnimations` call agrees with the
entry state on the four effect scalars and the raining flag. -/
theorem beforeEffects_frame (sqrtf : ℚ → ℚ) (rand : Nat → Nat) (deltaTime : ℚ) (s : State) :
    effectView (updateKillEffect deltaTime (updateWaterLevel deltaTime
      (updateSceneTransition deltaTime
        (updateInfoMessages deltaTime (updateMosquitoes sqrtf rand 0 s).1))))
      = effectView s := by
  rw [updateKillEffect_effectView, updateWaterLevel_effectView,
    updateSceneTransition_effectView, updateInfoMessages_effectView,
    updateMosquitoes_effectView]

/-- The four effect scalars after one enabled `updateAnimations` call. -/
theorem updateAnimations_effects (sqrtf : ℚ → ℚ) (rand : Nat → Nat) (deltaTime : ℚ)
    (s : State) (ha : s.isAnimating = true) :
    (updateAnimations sqrtf rand deltaTime s).rippleTime =
      (if s.rippleTime + deltaTime > 2 then 0 else s.rippleTime + deltaTime) ∧
    (updateAnimations sqrtf rand deltaTime s).mosquitoLifeCycle =
      (if s.mosquitoLifeCycle + 0.1 * deltaTime > 1 then 0
       else s.mosquitoLifeCycle + 0.1 * deltaTime) ∧
    (updateAnimations sqrtf rand deltaTime s).pulseEffect =
      (if s.pulseEffect + 0.5 * deltaTime > 1 then 0 else s.pulseEffect + 0.5 * deltaTime) ∧
    (updateAnimations sqrtf rand deltaTime s).rainEffect =
      (if s.rainEffect + 0.2 * deltaTime > 2 then 0 else s.rainEffect + 0.2 * deltaTime) := by
  have hv := beforeEffects_frame sqrtf rand deltaTime s
  rw [updateAnimations_enabled sqrtf rand deltaTime s ha]
  generalize updateKillEffect deltaTime (updateWaterLevel deltaTime
    (updateSceneTransition deltaTime
      (updateInfoMessages deltaTime (updateMosquitoes sqrtf rand 0 s).1))) = s4
    at hv ⊢
  simp only [effectView, Prod.mk.injEq] at hv
  obtain ⟨h1, h2, h3, h4, _⟩ := hv
  refine ⟨?_, ?_, ?_, ?_⟩
  · show (if s4.rippleTime + deltaTime > 2 then 0 else s4.rippleTime + deltaTime) = _
    rw [h1]
  · show (if s4.mosquitoLifeCycle + 0.1 * deltaTime > 1 then 0
      else s4.mosquitoLifeCycle + 0.1 * deltaTime) = _
    rw [h2]
  · show (if s4.pulseEffect + 0.5 * deltaTime > 1 then 0
      else s4.pulseEffect + 0.5 * deltaTime) = _
    rw [h3]
  · show (if s4.rainEffect + 0.2 * deltaTime > 2 then 0
      else s4.rainEffect + 0.2 * deltaTime) = _
    rw [h4]

/-- A scalar advanced by a non-negative step and reset to 0 above its bound stays in
`[0, bound]`. -/
theorem wrap_range (v step bound : ℚ) (hv : 0 ≤ v) (hstep : 0 ≤ step) (hb : 0 ≤ bound) :
    0 ≤ (if v + step > bound then 0 else v + step) ∧
    (if v + step > bound then 0 else v + step) ≤ bound := by
  split
  · exact ⟨le_refl 0, hb⟩
  · exact ⟨add_nonneg hv hstep, not_lt.mp ‹¬ v + step > bound›⟩

/-- C17: for every `deltaTime ≥ 0` with animation enabled, `updateAnimations` advances
`rippleTime` by `deltaTime`, `mosquitoLifeCycle` by `0.1 * deltaTime`, `pulseEffect` by
`0.5 * deltaTime` and `rainEffect` by `0.2 * deltaTime` and resets a scalar to 0 when the
advanced value exceeds its bound (2.0, 1.0, 1.0, 2.0 respectively); so a scalar that starts
in `[0, bound]` is again in `[0, bound]` after the call. -/
theorem effect_scalars_wrap (sqrtf : ℚ → ℚ) (rand : Nat → Nat) (deltaTime : ℚ) (s : State)
    (hdt : 0 ≤ deltaTime) (ha : s.isAnimating = true) :
    ((updateAnimations sqrtf rand deltaTime s).rippleTime =
        (if s.rippleTime + deltaTime > 2 then 0 else s.rippleTime + deltaTime) ∧
      (updateAnimations sqrtf rand deltaTime s).mosquitoLifeCycle =
        (if s.mosquitoLifeCycle + 0.1 * deltaTime > 1 then 0
         else s.mosquitoLifeCycle + 0.1 * deltaTime) ∧
      (updateAnimations sqrtf rand deltaTime s).pulseEffect =
        (if s.pulseEffect + 0.5 * deltaTime > 1 then 0 else s.pulseEffect + 0.5 * deltaTime) ∧
      (updateAnimations sqrtf rand deltaTime s).rainEffect =
        (if s.rainEffect + 0.2 * deltaTime > 2 then 0 else s.rainEffect + 0.2 * deltaTime)) ∧
    (0 ≤ s.rippleTime ∧ s.rippleTime ≤ 2 →
      0 ≤ (updateAnimations sqrtf rand deltaTime s).rippleTime ∧
      (updateAnimations sqrtf rand deltaTime s).rippleTime ≤ 2) ∧
    (0 ≤ s.mosquitoLifeCycle ∧ s.mosquitoLifeCycle ≤ 1 →
      0 ≤ (updateAnimations sqrtf rand deltaTime s).mosquitoLifeCycle ∧
      (updateAnimations sqrtf rand deltaTime s).mosquitoLifeCycle ≤ 1) ∧
    (0 ≤ s.pulseEffect ∧ s.pulseEffect ≤ 1 →
      0 ≤ (updateAnimations sqrtf rand deltaTime s).pulseEffect ∧
      (updateAnimations sqrtf rand deltaTime s).pulseEffect ≤ 1) ∧
    (0 ≤ s.rainEffect ∧ s.rainEffect ≤ 2 →
      0 ≤ (updateAnimations sqrtf rand deltaTime s).rainEffect ∧
      (updateAnimations sqrtf rand deltaTime s).rainEffect ≤ 2) := by
  have he := updateAnimations_effects sqrtf rand deltaTime s ha
  obtain ⟨e1, e2, e3, e4⟩ := he
  refine ⟨⟨e1, e2, e3, e4⟩, ?_, ?_, ?_, ?_⟩
  · intro h
    rw [e1]
    exact wrap_range _ _ 2 h.1 hdt (by norm_num)
  · intro h
    rw [e2]
    exact wrap_range _ _ 1 h.1 (by positivity) (by norm_num)
  · intro h
    rw [e3]
    exact wrap_range _ _ 1 h.1 (by positivity) (by norm_num)
  · intro h
    rw [e4]
    exact wrap_range _ _ 2 h.1 (by positivity) (by norm_num)

/-- Witness for C17: the startup state (all four scalars 0) with a 16 ms frame. -/
theorem effect_scalars_wrap_witness :
    (0 ≤ (updateAnimations sqrtApprox zeroRand 0.016 startState).rippleTime ∧
      (updateAnimations sqrtApprox zeroRand 0.016 startState).rippleTime ≤ 2) ∧
    (0 ≤ (updateAnimations sqrtApprox zeroRand 0.016 startState).mosquitoLifeCycle ∧
      (updateAnimations sqrtApprox zeroRand 0.016 startState).mosquitoLifeCycle ≤ 1) ∧
    (0 ≤ (updateAnimations sqrtApprox zeroRand 0.016 startState).pulseEffect ∧
      (updateAnimations sqrtApprox zeroRand 0.016 startState).pulseEffect ≤ 1) ∧
    (0 ≤ (updateAnimations sqrtApprox zeroRand 0.016 startState).rainEffect ∧
      (updateAnimations sqrtApprox zeroRand 0.016 startState).rainEffect ≤ 2) := by
  have h := effect_scalars_wrap sqrtApprox zeroRand 0.016 startState (by norm_num) rfl
  have z : ∀ b : ℚ, 0 ≤ b → (0 : ℚ) ≤ 0 ∧ (0 : ℚ) ≤ b := fun b hb => ⟨le_refl 0, hb⟩
  exact ⟨h.2.1 (z 2 (by norm_num)), h.2.2.1 (z 1 (by norm_num)),
    h.2.2.2.1 (z 1 (by norm_num)), h.2.2.2.2 (z 2 (by norm_num))⟩

/-- C18: the hover/click containment test is inclusive: for every element and point,
`isPointInside x y e` holds exactly when `|x - e.x| ≤ e.width / 2` and
`|y - e.y| ≤ e.height / 2`, so a point lying exactly on an edge of the bounding box of an
element (of non-negative width and height) is classified inside; and `motion` sets the
`isHovered` flag of each element to the value of this test at the pointer position mapped to
scene coordinates. -/
theorem isPointInside_inclusive (x y : ℚ) (e : InteractiveElement) :
    (isPointInside x y e = true ↔ |x - e.x| ≤ e.width / 2 ∧ |y - e.y| ≤ e.height / 2) ∧
    (0 ≤ e.width → |y - e.y| ≤ e.height / 2 →
      isPointInside (e.x - e.width / 2) y e = true ∧
      isPointInside (e.x + e.width / 2) y e = true) ∧
    (0 ≤ e.height → |x - e.x| ≤ e.width / 2 →
      isPointInside x (e.y - e.height / 2) e = true ∧
      isPointInside x (e.y + e.height / 2) e = true) ∧
    (∀ (px py width height : Int) (s : State),
      (motion px py width height s).interactiveElements =
        s.interactiveElements.map (fun el =>
          { el with isHovered :=
              (isPointInside (((px : ℚ) / (width : ℚ)) * 10 - 5)
                (5 - ((py : ℚ) / (height : ℚ)) * 10) el) })) := by
  have hiff : ∀ (a b : ℚ), (isPointInside a b e = true ↔
      |a - e.x| ≤ e.width / 2 ∧ |b - e.y| ≤ e.height / 2) := by
    intro a b
    unfold isPointInside
    simp only [Bool.and_eq_true, decide_eq_true_eq, abs_le]
    constructor
    · rintro ⟨⟨⟨h1, h2⟩, h3⟩, h4⟩
      exact ⟨⟨by linarith, by linarith⟩, ⟨by linarith, by linarith⟩⟩
    · rintro ⟨⟨h1, h2⟩, ⟨h3, h4⟩⟩
      exact ⟨⟨⟨by linarith, by linarith⟩, by linarith⟩, by linarith⟩
  refine ⟨hiff x y, ?_, ?_, ?_⟩
  · intro hw hy
    constructor
    · refine (hiff _ _).2 ⟨?_, hy⟩
      rw [abs_le]
      constructor <;> linarith
    · refine (hiff _ _).2 ⟨?_, hy⟩
      rw [abs_le]
      constructor <;> linarith
  · intro hh hx
    constructor
    · refine (hiff _ _).2 ⟨hx, ?_⟩
      rw [abs_le]
      constructor <;> linarith
    · refine (hiff _ _).2 ⟨hx, ?_⟩
      rw [abs_le]
      constructor <;> linarith
  · intro px py width height s
    rfl

/-- Witness for C18: the points `(-3.5, 1)` and `(-2.5, 1)` on the left and right edges of
the water container element. -/
theorem isPointInside_inclusive_witness :
    isPointInside (waterContainer.x - waterContainer.width / 2) 1 waterContainer = true ∧
    isPointInside (waterContainer.x + waterContainer.width / 2) 1 waterContainer = true :=
  (isPointInside_inclusive 0 1 waterContainer).2.1
    (by show (0 : ℚ) ≤ 1; norm_num)
    (by show |(1 : ℚ) - 1| ≤ 1 / 2; norm_num)

/-! ## The death animation never runs -/

/-- `updateInfoMessages` leaves the death-animation pair, spawn timer and animation flag
alone. -/
theorem updateInfoMessages_poolView (deltaTime : ℚ) (s : State) :
    poolView (updateInfoMessages deltaTime s) = poolView s := by
  obtain ⟨t2, p2, h2⟩ := updateInfoMessages_frame deltaTime s
  rw [h2]
  rfl

/-- `updateSceneTransition` leaves the death-animation pair, spawn timer and animation flag
alone. -/
theorem updateSceneTransition_poolView (deltaTime : ℚ) (s : State) :
    poolView (updateSceneTransition deltaTime s) = poolView s := by
  obtain ⟨t3, c3, p3, h3⟩ := updateSceneTransition_frame deltaTime s
  rw [h3]
  rfl

/-- The water block leaves the death-animation pair, spawn timer and animation flag alone. -/
theorem updateWaterLevel_poolView (deltaTime : ℚ) (s : State) :
    poolView (updateWaterLevel deltaTime s) = poolView s := by
  obtain ⟨w, r, hw⟩ := updateWaterLevel_frame deltaTime s
  rw [hw]
  rfl

/-- The kill-effect block leaves the death-animation pair, spawn timer and animation flag
alone. -/
theorem updateKillEffect_poolView (deltaTime : ℚ) (s : State) :
    poolView (updateKillEffect deltaTime s) = poolView s := by
  obtain ⟨kk, kt, kp, ki, hk⟩ := updateKillEffect_frame deltaTime s
  rw [hk]
  rfl

/-- After an enabled frame the death-animation pair, spawn timer and animation flag are the
ones `updateMosquitoes` left. -/
theorem updateAnimations_poolView (sqrtf : ℚ → ℚ) (rand : Nat → Nat) (deltaTime : ℚ)
    (s : State) (ha : s.isAnimating = true) :
    poolView (updateAnimations sqrtf rand deltaTime s)
      = poolView (updateMosquitoes sqrtf rand 0 s).1 := by
  rw [updateAnimations_enabled sqrtf rand deltaTime s ha]
  show poolView (updateKillEffect deltaTime _) = _
  rw [updateKillEffect_poolView, updateWaterLevel_poolView, updateSceneTransition_poolView,
    updateInfoMessages_poolView]

/-- A frame entered without a death animation leaves without one. -/
theorem updateAnimations_noDeath (sqrtf : ℚ → ℚ) (rand : Nat → Nat) (deltaTime : ℚ)
    (s : State) (hd : s.mosquitoDeathAnimation = false) :
    (updateAnimations sqrtf rand deltaTime s).mosquitoDeathAnimation = false := by
  cases ha : s.isAnimating
  · unfold updateAnimations
    simpa [ha] using hd
  · have h := congrArg (fun v => v.1) (updateAnimations_poolView sqrtf rand deltaTime s ha)
    simp only [poolView] at h
    rw [h]
    exact (updateMosquitoes_noDeath sqrtf rand 0 s hd).2

/-- The keyboard callback never touches the death-animation flag. -/
theorem key_deathAnimation (c : Char) (x y : Int) (s s' : State) (h : key c x y s = some s') :
    s'.mosquitoDeathAnimation = s.mosquitoDeathAnimation := by
  unfold key at h
  simp only [] at h
  split at h
  all_goals first
    | (cases h; rfl)
    | cases h
    | (split at h
       · split at h <;> (cases h; rfl)
       · cases h; rfl)

/-- The mouse callback never touches the death-animation flag. -/
theorem mouse_deathAnimation (button state x y width height : Int) (s : State) :
    (mouse button state x y width height s).mosquitoDeathAnimation
      = s.mosquitoDeathAnimation := by
  unfold mouse
  simp only []
  split
  · split <;> rfl
  · rfl

/-- In every reachable state the death-animation flag is off. -/
theorem reachable_noDeath (sqrtf : ℚ → ℚ) (s : State) (hs : Reachable sqrtf s) :
    s.mosquitoDeathAnimation = false := by
  induction hs with
  | start rand => rfl
  | key c x y s s' _ hk ih => rw [key_deathAnimation c x y s s' hk]; exact ih
  | mouse button state x y width height s _ ih => rw [mouse_deathAnimation]; exact ih
  | motion x y width height s _ ih => exact ih
  | display rand deltaTime s _ _ ih => exact updateAnimations_noDeath sqrtf rand deltaTime s ih

/-- Appending flags loses no position and revives none. -/
theorem deadKept_append (l extra : List Bool) : DeadKept l (l ++ extra) := by
  refine ⟨by simp, ?_⟩
  intro j hj hdead
  rw [List.getD_append l extra false j hj]
  exact hdead

/-- Clearing one flag loses no position and revives none. -/
theorem deadKept_set (l : List Bool) (n : Nat) (hn : n < l.length) :
    DeadKept l (l.set n false) := by
  refine ⟨by simp, ?_⟩
  intro j _ hdead
  rw [getD_set_flags l n j false hn]
  split
  · rfl
  · exact hdead

/-- `DeadKept` is transitive. -/
theorem deadKept_trans (a b c : List Bool) (h1 : DeadKept a b) (h2 : DeadKept b c) :
    DeadKept a c :=
  ⟨le_trans h1.1 h2.1, fun j hj hdead => h2.2 j (lt_of_lt_of_le hj h1.1) (h1.2 j hj hdead)⟩

/-- `DeadKept` is reflexive. -/
theorem deadKept_refl (a : List Bool) : DeadKept a a :=
  ⟨le_refl _, fun _ _ h => h⟩

/-- The bounds-checked kill assignment loses no position and revives none. -/
theorem markKilled_deadKept (i : Int) (pool : List Mosquito) :
    DeadKept (aliveFlags pool) (aliveFlags (markKilled i pool)) := by
  unfold markKilled
  split
  · rw [setAlive_flags]
    apply deadKept_set
    have h := ‹i ≥ 0 ∧ i.toNat < pool.length›
    simpa [aliveFlags] using h.2
  · exact deadKept_refl _

/-- The kill-effect block loses no position and revives none. -/
theorem updateKillEffect_deadKept (deltaTime : ℚ) (s : State) :
    DeadKept (aliveFlags s.mosquitoes) (aliveFlags (updateKillEffect deltaTime s).mosquitoes) := by
  unfold updateKillEffect
  split
  · simp only []
    split
    · exact markKilled_deadKept _ _
    · exact deadKept_refl _
  · exact deadKept_refl _

/-- A frame entered without a death animation removes no mosquito and revives none. -/
theorem updateAnimations_deadKept (sqrtf : ℚ → ℚ) (rand : Nat → Nat) (deltaTime : ℚ)
    (s : State) (hd : s.mosquitoDeathAnimation = false) :
    DeadKept (aliveFlags s.mosquitoes)
      (aliveFlags (updateAnimations sqrtf rand deltaTime s).mosquitoes) := by
  cases ha : s.isAnimating
  · have h : updateAnimations sqrtf rand deltaTime s = s := by
      unfold updateAnimations
      simp [ha]
    rw [h]
    exact deadKept_refl _
  · rw [updateAnimations_enabled sqrtf rand deltaTime s ha]
    show DeadKept _ (aliveFlags (updateKillEffect deltaTime _).mosquitoes)
    refine deadKept_trans _ _ _ ?_ (updateKillEffect_deadKept deltaTime _)
    rw [(beforeKillEffect_frame sqrtf rand deltaTime s).2.2.2.2,
      (updateMosquitoes_noDeath sqrtf rand 0 s hd).1]
    exact deadKept_append _ _

/-- C20: in every state reachable from startup by any sequence of key, mouse, motion and
`updateAnimations` calls, `mosquitoDeathAnimation` is false; therefore `updateMosquitoes`
never takes its erase branch (its pool is the old pool, plus the spawned mosquito when one
is due, with every `alive` flag kept), and across every transition (a frame with any
`deltaTime`, a key, a mouse or a motion event) the flag stays false, the pool size never
decreases and a mosquito marked dead stays in the pool, dead, at its index. -/
theorem death_animation_never_runs (sqrtf : ℚ → ℚ) (s : State) (hs : Reachable sqrtf s) :
    s.mosquitoDeathAnimation = false ∧
    (∀ (rand : Nat → Nat) (k : Nat),
      aliveFlags (updateMosquitoes sqrtf rand k s).1.mosquitoes =
        aliveFlags s.mosquitoes ++ (if spawnDue s then [true] else [])) ∧
    (∀ (rand : Nat → Nat) (deltaTime : ℚ),
      (updateAnimations sqrtf rand deltaTime s).mosquitoDeathAnimation = false ∧
      s.mosquitoes.length ≤ (updateAnimations sqrtf rand deltaTime s).mosquitoes.length ∧
      DeadKept (aliveFlags s.mosquitoes)
        (aliveFlags (updateAnimations sqrtf rand deltaTime s).mosquitoes)) ∧
    (∀ (c : Char) (x y : Int) (s' : State), key c x y s = some s' →
      s'.mosquitoDeathAnimation = false ∧ s'.mosquitoes = s.mosquitoes) ∧
    (∀ (button state x y width height : Int),
      (mouse button state x y width height s).mosquitoes = s.mosquitoes) ∧
    (∀ (x y width height : Int), (motion x y width height s).mosquitoes = s.mosquitoes) := by
  have hd := reachable_noDeath sqrtf s hs
  refine ⟨hd, fun rand k => (updateMosquitoes_noDeath sqrtf rand k s hd).1, ?_,
    fun c x y s' h => ⟨(key_deathAnimation c x y s s' h).trans hd, key_mosquitoes c x y s s' h⟩,
    fun button state x y width height => mouse_mosquitoes button state x y width height s,
    fun _ _ _ _ => rfl⟩
  intro rand deltaTime
  have hk := updateAnimations_deadKept sqrtf rand deltaTime s hd
  refine ⟨updateAnimations_noDeath sqrtf rand deltaTime s hd, ?_, hk⟩
  have := hk.1
  simpa [aliveFlags] using this

/-- Witness for C20: the state reached from startup by the kill key and a 0.6 s frame, in
which mosquito 0 is dead: the flag is off and a further frame keeps the dead mosquito. -/
theorem death_animation_never_runs_witness :
    (updateAnimations sqrtApprox zeroRand 0.6 killingState).mosquitoDeathAnimation = false ∧
    (updateAnimations sqrtApprox zeroRand 0.6 killingState).mosquitoes.length ≤
      (updateAnimations sqrtApprox zeroRand 0.6
        (updateAnimations sqrtApprox zeroRand 0.6 killingState)).mosquitoes.length := by
  have hr : Reachable sqrtApprox (updateAnimations sqrtApprox zeroRand 0.6 killingState) :=
    Reachable.display zeroRand 0.6 killingState
      (Reachable.key 'd' 0 0 startState killingState (Reachable.start zeroRand) rfl)
      (by norm_num)
  have h := death_animation_never_runs sqrtApprox _ hr
  exact ⟨h.1, (h.2.2.1 zeroRand 0.6).2.1⟩

/-! ## End to end: the first five seconds -/

/-- The spawn timer after `updateMosquitoes`. -/
theorem updateMosquitoes_timer (sqrtf : ℚ → ℚ) (rand : Nat → Nat) (k : Nat) (s : State) :
    (updateMosquitoes sqrtf rand k s).1.mosquitoSpawnTimer =
      if spawnDue s then 0 else s.mosquitoSpawnTimer + 0.016 := by
  unfold updateMosquitoes
  simp only []
  split
  · split <;> rfl
  · rfl

/-- The pool size after a frame entered with animation enabled and no death animation. -/
theorem updateAnimations_length (sqrtf : ℚ → ℚ) (rand : Nat → Nat) (deltaTime : ℚ)
    (s : State) (ha : s.isAnimating = true) (hd : s.mosquitoDeathAnimation = false) :
    (updateAnimations sqrtf rand deltaTime s).mosquitoes.length =
      s.mosquitoes.length + (if spawnDue s then 1 else 0) := by
  rw [updateAnimations_enabled sqrtf rand deltaTime s ha]
  show (updateKillEffect deltaTime _).mosquitoes.length = _
  rw [updateKillEffect_length, (beforeKillEffect_frame sqrtf rand deltaTime s).2.2.2.2,
    updateMosquitoes_length_noDeath sqrtf rand 0 s hd]

/-- The spawn condition for a small pool whose spawn timer holds `m` increments of 0.016. -/
theorem spawnDue_iff (s : State) (m : Nat) (hm : m < 125)
    (ht : s.mosquitoSpawnTimer = 0.016 * (m : ℚ)) (hl : s.mosquitoes.length < 20) :
    spawnDue s = true ↔ m = 124 := by
  unfold spawnDue
  simp only [Bool.and_eq_true, decide_eq_true_eq, MAX_MOSQUITOES, mosquitoSpawnInterval, ht]
  constructor
  · rintro ⟨h1, _⟩
    have h2 : (124 : ℚ) ≤ (m : ℚ) := by linarith
    have h3 : 124 ≤ m := by exact_mod_cast h2
    omega
  · intro h
    subst h
    exact ⟨by norm_num, hl⟩

/-- What the first 312 frames of 16 ms leave behind: animation still enabled, no death
animation, scene 0 with its untouched message pool, both timers at `0.016 * n`, the spawn
timer at `0.016 * (n % 125)` and a pool of `1 + n / 125` mosquitoes. -/
theorem frames_invariant (sqrtf : ℚ → ℚ) (rand0 : Nat → Nat) (rands : Nat → Nat → Nat)
    (n : Nat) (hn : n ≤ 312) :
    (runFrames sqrtf rands 0.016 n (startup rand0)).isAnimating = true ∧
    (runFrames sqrtf rands 0.016 n (startup rand0)).mosquitoDeathAnimation = false ∧
    sceneView (runFrames sqrtf rands 0.016 n (startup rand0))
      = (0, scenePool 0, 0.016 * (n : ℚ), 0.016 * (n : ℚ)) ∧
    (runFrames sqrtf rands 0.016 n (startup rand0)).mosquitoSpawnTimer
      = 0.016 * ((n % 125 : ℕ) : ℚ) ∧
    (runFrames sqrtf rands 0.016 n (startup rand0)).mosquitoes.length = 1 + n / 125 := by
  induction n with
  | zero =>
    refine ⟨rfl, rfl, ?_, ?_, rfl⟩
    · show ((0 : Int), scenePool 0, (0 : ℚ), (0 : ℚ)) = _
      norm_num
    · show (0 : ℚ) = _
      norm_num
  | succ n ih =>
    obtain ⟨ha, hd, hv, ht, hl⟩ := ih (by omega)
    have hn1 : (n : ℚ) + 1 ≤ 312 := by exact_mod_cast hn
    show (updateAnimations sqrtf (rands n) 0.016 _).isAnimating = true ∧
      (updateAnimations sqrtf (rands n) 0.016 _).mosquitoDeathAnimation = false ∧
      sceneView (updateAnimations sqrtf (rands n) 0.016 _) = _ ∧
      (updateAnimations sqrtf (rands n) 0.016 _).mosquitoSpawnTimer = _ ∧
      (updateAnimations sqrtf (rands n) 0.016 _).mosquitoes.length = _
    generalize runFrames sqrtf rands 0.016 n (startup rand0) = s at ha hd hv ht hl ⊢
    simp only [sceneView, Prod.mk.injEq] at hv
    obtain ⟨hc, hp, hmt, hst⟩ := hv
    have hpv := updateAnimations_poolView sqrtf (rands n) 0.016 s ha
    obtain ⟨t1, p1, d1, a1, h1⟩ := updateMosquitoes_frame sqrtf (rands n) 0 s
    have hmod : n % 125 < 125 := Nat.mod_lt _ (by norm_num)
    have hlen : s.mosquitoes.length < 20 := by rw [hl]; omega
    have hdue := spawnDue_iff s (n % 125) hmod ht hlen
    refine ⟨?_, updateAnimations_noDeath sqrtf (rands n) 0.016 s hd, ?_, ?_, ?_⟩
    · have h := congrArg (fun v => v.2.2.2) hpv
      simp only [poolView] at h
      rw [h, h1]
      exact ha
    · rw [updateAnimations_sceneView sqrtf (rands n) 0.016 s ha]
      have hm : ¬ s.messageTimer + 0.016 ≥ 5 := by
        rw [hmt]
        intro hge
        linarith
      rw [updateInfoMessages_hold 0.016 s hm]
      have hs : ¬ s.sceneTimer + 0.016 ≥ 15 := by
        rw [hst]
        intro hge
        linarith
      rw [updateSceneTransition_hold 0.016 _ (by exact hs)]
      simp only [sceneView, Prod.mk.injEq]
      refine ⟨hc, hp, ?_, ?_⟩
      · rw [hmt]
        push_cast
        ring
      · rw [hst]
        push_cast
        ring
    · have h := congrArg (fun v => v.2.2.1) hpv
      simp only [poolView] at h
      rw [h, updateMosquitoes_timer]
      by_cases h124 : n % 125 = 124
      · rw [if_pos (hdue.2 h124)]
        have : (n + 1) % 125 = 0 := by omega
        rw [this]
        norm_num
      · have hnd : ¬ spawnDue s = true := fun hh => h124 (hdue.1 hh)
        rw [if_neg hnd, ht]
        have : (n + 1) % 125 = n % 125 + 1 := by omega
        rw [this]
        push_cast
        ring
    · rw [updateAnimations_length sqrtf (rands n) 0.016 s ha hd, hl]
      by_cases h124 : n % 125 = 124
      · rw [if_pos (hdue.2 h124)]
        omega
      · have hnd : ¬ spawnDue s = true := fun hh => h124 (hdue.1 hh)
        rw [if_neg hnd]
        omega

/-- One more frame. -/
theorem runFrames_succ (sqrtf : ℚ → ℚ) (rands : Nat → Nat → Nat) (deltaTime : ℚ) (n : Nat)
    (s : State) :
    runFrames sqrtf rands deltaTime (n + 1) s =
      updateAnimations sqrtf (rands n) deltaTime (runFrames sqrtf rands deltaTime n s) := rfl

/-- The frame that completes five seconds: entered on scene 0 with the untouched pool of
scene 0, 4.992 s on both timers, 0.992 s on the spawn timer and three mosquitoes, a 16 ms
frame rotates to message 1, stays on scene 0 and spawns nothing. -/
theorem closing_frame (sqrtf : ℚ → ℚ) (rand : Nat → Nat) (s : State)
    (ha : s.isAnimating = true) (hd : s.mosquitoDeathAnimation = false)
    (hc : s.currentScene = 0) (hp : s.infoMessages = scenePool 0)
    (hmt : s.messageTimer = 0.016 * ((312 : ℕ) : ℚ))
    (hst : s.sceneTimer = 0.016 * ((312 : ℕ) : ℚ))
    (ht : s.mosquitoSpawnTimer = 0.016 * ((312 % 125 : ℕ) : ℚ))
    (hl : s.mosquitoes.length = 1 + 312 / 125) :
    OnlyActiveAt (updateAnimations sqrtf rand 0.016 s).infoMessages 1 ∧
    (updateAnimations sqrtf rand 0.016 s).currentScene = 0 ∧
    (updateAnimations sqrtf rand 0.016 s).mosquitoes.length = 3 := by
  have hview := updateAnimations_sceneView sqrtf rand 0.016 s ha
  have hm : s.messageTimer + 0.016 ≥ 5 := by
    rw [hmt]
    norm_num
  have hs : ¬ s.sceneTimer + 0.016 ≥ 15 := by
    rw [hst]
    norm_num
  have v1 := congrArg (fun v => v.1) hview
  have v2 := congrArg (fun v => v.2.1) hview
  simp only [sceneView] at v1 v2
  refine ⟨?_, ?_, ?_⟩
  · rw [v2, updateInfoMessages_fire 0.016 s hm,
      updateSceneTransition_hold 0.016 _ (by exact hs)]
    show OnlyActiveAt (rotateLoop s.infoMessages 0 s.infoMessages.length) 1
    rw [hp]
    decide
  · rw [v1, updateInfoMessages_fire 0.016 s hm,
      updateSceneTransition_hold 0.016 _ (by exact hs)]
    exact hc
  · rw [updateAnimations_length sqrtf rand 0.016 s ha hd, hl]
    have hdue := spawnDue_iff s (312 % 125) (by norm_num) ht (by rw [hl]; norm_num)
    have hnd : ¬ spawnDue s = true := fun hh => absurd (hdue.1 hh) (by norm_num)
    rw [if_neg hnd]

/-- The state after 313 frames of 16 ms from startup: message 1 is the only active message,
the scene is still 0 and the pool holds three mosquitoes. -/
theorem frames_313 (sqrtf : ℚ → ℚ) (rand0 : Nat → Nat) (rands : Nat → Nat → Nat) :
    OnlyActiveAt (runFrames sqrtf rands 0.016 313 (startup rand0)).infoMessages 1 ∧
    (runFrames sqrtf rands 0.016 313 (startup rand0)).currentScene = 0 ∧
    (runFrames sqrtf rands 0.016 313 (startup rand0)).mosquitoes.length = 3 := by
  obtain ⟨ha, hd, hv, ht, hl⟩ := frames_invariant sqrtf rand0 rands 312 (le_refl _)
  simp only [sceneView, Prod.mk.injEq] at hv
  obtain ⟨hc, hp, hmt, hst⟩ := hv
  rw [show (313 : ℕ) = 312 + 1 from rfl, runFrames_succ]
  exact closing_frame sqrtf (rands 312) _ ha hd hc hp hmt hst ht hl

/-- C19 fails as stated: after 313 frames of 16 ms from startup, with no key input, message 1
is active and the scene is still 0, but the pool holds three mosquitoes, not one. -/
theorem end_to_end_counterexample :
    OnlyActiveAt
      (runFrames sqrtApprox (fun _ => zeroRand) 0.016 313 startState).infoMessages 1 ∧
    (runFrames sqrtApprox (fun _ => zeroRand) 0.016 313 startState).currentScene = 0 ∧
    (runFrames sqrtApprox (fun _ => zeroRand) 0.016 313 startState).mosquitoes.length = 3 ∧
    (runFrames sqrtApprox (fun _ => zeroRand) 0.016 313 startState).mosquitoes.length ≠ 1 := by
  obtain ⟨h1, h2, h3⟩ := frames_313 sqrtApprox zeroRand (fun _ => zeroRand)
  exact ⟨h1, h2, h3, fun h => absurd (h3.symm.trans h) (by decide)⟩

/-- C19 (amended): end to end, from the startup state (scene 0, one scripted mosquito,
message 0 active, all timers 0, animation enabled), for every draw stream, applying
`updateAnimations` with `deltaTime` 0.016 for 313 frames with no key input yields a state
where message 1 is the only active message, `currentScene` is still 0 and the pool holds
three mosquitoes: the spawn step runs in every scene, and its timer fills twice in these
frames (the pool has one mosquito after 124 frames, two after 125, three after 250);
after 312 frames message 0 is still the active one. -/
theorem end_to_end_rotation (sqrtf : ℚ → ℚ) (rand0 : Nat → Nat) (rands : Nat → Nat → Nat) :
    (OnlyActiveAt (runFrames sqrtf rands 0.016 313 (startup rand0)).infoMessages 1 ∧
      (runFrames sqrtf rands 0.016 313 (startup rand0)).currentScene = 0 ∧
      (runFrames sqrtf rands 0.016 313 (startup rand0)).mosquitoes.length = 3) ∧
    OnlyActiveAt (runFrames sqrtf rands 0.016 312 (startup rand0)).infoMessages 0 ∧
    (runFrames sqrtf rands 0.016 124 (startup rand0)).mosquitoes.length = 1 ∧
    (runFrames sqrtf rands 0.016 125 (startup rand0)).mosquitoes.length = 2 ∧
    (runFrames sqrtf rands 0.016 250 (startup rand0)).mosquitoes.length = 3 := by
  refine ⟨frames_313 sqrtf rand0 rands, ?_,
    (frames_invariant sqrtf rand0 rands 124 (by norm_num)).2.2.2.2,
    (frames_invariant sqrtf rand0 rands 125 (by norm_num)).2.2.2.2,
    (frames_invariant sqrtf rand0 rands 250 (by norm_num)).2.2.2.2⟩
  have hv := (frames_invariant sqrtf rand0 rands 312 (le_refl _)).2.2.1
  simp only [sceneView, Prod.mk.injEq] at hv
  rw [hv.2.1]
  decide

/-! ## Kill bookkeeping -/

/-- Appending the flag of a spawned (alive) mosquito, or nothing, adds no dead flag. -/
theorem count_false_append_spawn (l : List Bool) (b : Bool) :
    (l ++ (if b then [true] else [])).count false = l.count false := by
  cases b <;> simp [List.count_append]

/-- Clearing the flag of an alive mosquito adds exactly one dead flag. -/
theorem count_false_set (l : List Bool) (i : Nat) (hi : i < l.length)
    (hal : l.getD i false = true) :
    (l.set i false).count false = l.count false + 1 := by
  induction l generalizing i with
  | nil => exact absurd hi (Nat.not_lt_zero _)
  | cons a rest ih =>
    cases i with
    | zero =>
      have ha : a = true := hal
      subst ha
      simp
    | succ i =>
      have h := ih i (Nat.lt_of_succ_lt_succ hi) hal
      cases a
      · simp only [List.set_cons_succ, List.count_cons_self, h]
      · simpa using h

/-- The kill fields after the keyboard callback: either untouched, or a kill was started on
the index where the search loop stopped. -/
theorem key_killFields (c : Char) (x y : Int) (s s' : State) (h : key c x y s = some s') :
    (s'.mosquitoes = s.mosquitoes ∧ s'.isKillingMosquito = s.isKillingMosquito ∧
      s'.mosquitoToKill = s.mosquitoToKill ∧ s'.killedMosquitoes = s.killedMosquitoes) ∨
    (s.isKillingMosquito = false ∧
      ∃ i, firstFrom (fun m => m.alive) s.mosquitoes 0 = some i ∧
        s'.mosquitoes = s.mosquitoes ∧ s'.isKillingMosquito = true ∧
        s'.mosquitoToKill = (i : Int) ∧ s'.killedMosquitoes = s.killedMosquitoes + 1) := by
  unfold key at h
  simp only [] at h
  split at h
  all_goals first
    | (cases h; exact Or.inl ⟨rfl, rfl, rfl, rfl⟩)
    | cases h
    | (split at h
       · rename_i hk
         split at h
         · rename_i i hi
           cases h
           exact Or.inr ⟨by simpa using hk, i, hi, rfl, rfl, rfl, rfl⟩
         · cases h
           exact Or.inl ⟨rfl, rfl, rfl, rfl⟩
       · cases h
         exact Or.inl ⟨rfl, rfl, rfl, rfl⟩)

/-- The mouse callback never touches the kill fields. -/
theorem mouse_killFields (button state x y width height : Int) (s : State) :
    (mouse button state x y width height s).isKillingMosquito = s.isKillingMosquito ∧
    (mouse button state x y width height s).mosquitoToKill = s.mosquitoToKill ∧
    (mouse button state x y width height s).killedMosquitoes = s.killedMosquitoes := by
  unfold mouse
  simp only []
  split
  · split <;> exact ⟨rfl, rfl, rfl⟩
  · exact ⟨rfl, rfl, rfl⟩

/-- A frame never touches the kill counter. -/
theorem updateAnimations_killed (sqrtf : ℚ → ℚ) (rand : Nat → Nat) (deltaTime : ℚ)
    (s : State) :
    (updateAnimations sqrtf rand deltaTime s).killedMosquitoes = s.killedMosquitoes := by
  cases ha : s.isAnimating
  · unfold updateAnimations
    simp [ha]
  · rw [updateAnimations_enabled sqrtf rand deltaTime s ha]
    obtain ⟨kk, kt, kp, ki, hk⟩ := updateKillEffect_frame deltaTime
      (updateWaterLevel deltaTime (updateSceneTransition deltaTime
        (updateInfoMessages deltaTime (updateMosquitoes sqrtf rand 0 s).1)))
    show (updateKillEffect deltaTime _).killedMosquitoes = _
    rw [hk]
    exact (beforeKillEffect_frame sqrtf rand deltaTime s).2.2.2.1

/-- An enabled frame with no kill pending: no kill is started and no `alive` flag
changes. -/
theorem tick_kill_idle (sqrtf : ℚ → ℚ) (rand : Nat → Nat) (deltaTime : ℚ) (t : State)
    (ha : t.isAnimating = true) (hk : t.isKillingMosquito = false)
    (hd : t.mosquitoDeathAnimation = false) :
    (updateAnimations sqrtf rand deltaTime t).isKillingMosquito = false ∧
    aliveFlags (updateAnimations sqrtf rand deltaTime t).mosquitoes
      = aliveFlags t.mosquitoes ++ (if spawnDue t then [true] else []) := by
  obtain ⟨h1, _, _, _, h5⟩ := beforeKillEffect_frame sqrtf rand deltaTime t
  rw [updateAnimations_enabled sqrtf rand deltaTime t ha]
  generalize updateWaterLevel deltaTime (updateSceneTransition deltaTime
      (updateInfoMessages deltaTime (updateMosquitoes sqrtf rand 0 t).1)) = s3 at h1 h5 ⊢
  have hke : updateKillEffect deltaTime s3 = s3 := by
    unfold updateKillEffect
    rw [if_neg (by rw [h1, hk]; exact Bool.false_ne_true)]
  rw [hke]
  refine ⟨h1.trans hk, ?_⟩
  show aliveFlags s3.mosquitoes = _
  rw [h5]
  exact (updateMosquitoes_noDeath sqrtf rand 0 t hd).1

/-- The flag list of a pool is as long as the pool. -/
theorem aliveFlags_length (pool : List Mosquito) : (aliveFlags pool).length = pool.length := by
  simp [aliveFlags]

/-- The startup state satisfies the kill bookkeeping. -/
theorem startup_killInvariant (rand : Nat → Nat) : KillInvariant (startup rand) :=
  ⟨rfl, fun h => absurd h Bool.false_ne_true⟩

/-- The keyboard callback keeps the kill bookkeeping. -/
theorem key_killInvariant (c : Char) (x y : Int) (s s' : State) (hkey : key c x y s = some s')
    (h : KillInvariant s) : KillInvariant s' := by
  rcases key_killFields c x y s s' hkey with ⟨h1, h2, h3, h4⟩ | ⟨hk, i, hi, h1, h2, h3, h4⟩
  · unfold KillInvariant
    rw [h1, h2, h3, h4]
    exact h
  · obtain ⟨_, hlt, hal⟩ := firstFrom_alive s.mosquitoes 0 i hi
    have hcount := h.1
    rw [hk] at hcount
    unfold KillInvariant
    rw [h1, h2, h3, h4]
    refine ⟨?_, fun _ => ⟨Int.ofNat_nonneg i, ?_, ?_⟩⟩
    · simp only [if_true]
      simp only [Bool.false_eq_true, if_false, add_zero] at hcount
      rw [hcount]
    · simpa using hlt
    · simpa using hal

/-- The mouse callback keeps the kill bookkeeping. -/
theorem mouse_killInvariant (button state x y width height : Int) (s : State)
    (h : KillInvariant s) : KillInvariant (mouse button state x y width height s) := by
  obtain ⟨h2, h3, h4⟩ := mouse_killFields button state x y width height s
  unfold KillInvariant
  rw [mouse_mosquitoes, h2, h3, h4]
  exact h

/-- A frame entered without a death animation keeps the kill bookkeeping. -/
theorem updateAnimations_killInvariant (sqrtf : ℚ → ℚ) (rand : Nat → Nat) (deltaTime : ℚ)
    (s : State) (hd : s.mosquitoDeathAnimation = false) (h : KillInvariant s) :
    KillInvariant (updateAnimations sqrtf rand deltaTime s) := by
  cases ha : s.isAnimating
  · have hsame : updateAnimations sqrtf rand deltaTime s = s := by
      unfold updateAnimations
      simp [ha]
    rw [hsame]
    exact h
  · have hkilled := updateAnimations_killed sqrtf rand deltaTime s
    have hlen := aliveFlags_length (updateAnimations sqrtf rand deltaTime s).mosquitoes
    have hcount := h.1
    cases hk : s.isKillingMosquito
    · obtain ⟨k1, f1⟩ := tick_kill_idle sqrtf rand deltaTime s ha hk hd
      rw [hk] at hcount
      refine ⟨?_, fun hh => absurd (k1.symm.trans hh) Bool.false_ne_true⟩
      unfold deadCount
      rw [f1, k1, hkilled, count_false_append_spawn]
      exact hcount
    · obtain ⟨h0, hlt, hal⟩ := h.2 hk
      have hi : s.mosquitoToKill = ((s.mosquitoToKill.toNat : Nat) : Int) :=
        (Int.toNat_of_nonneg h0).symm
      have hltF : s.mosquitoToKill.toNat < (aliveFlags s.mosquitoes).length := by
        rw [aliveFlags_length]
        exact hlt
      have hgetD : (aliveFlags s.mosquitoes ++ (if spawnDue s then [true] else [])).getD
          s.mosquitoToKill.toNat false = true := by
        rw [List.getD_append _ _ _ _ hltF]
        exact hal
      have hltFE : s.mosquitoToKill.toNat
          < (aliveFlags s.mosquitoes ++ (if spawnDue s then [true] else [])).length := by
        rw [List.length_append]
        omega
      rw [hk] at hcount
      by_cases hp : s.killEffectTime + deltaTime * 2 > 1
      · obtain ⟨k1, _, _, f1⟩ := tick_kill_final sqrtf rand deltaTime s
          s.mosquitoToKill.toNat ha hk hd hi hlt hp
        refine ⟨?_, fun hh => absurd (k1.symm.trans hh) Bool.false_ne_true⟩
        unfold deadCount
        rw [f1, k1, hkilled, count_false_set _ _ hltFE hgetD, count_false_append_spawn]
        simp only [Bool.false_eq_true, if_false, add_zero]
        simp only [if_true] at hcount
        rw [← hcount]
        push_cast
        rfl
      · obtain ⟨k1, _, t1, f1⟩ := tick_kill_pending sqrtf rand deltaTime s ha hk hd hp
        constructor
        · unfold deadCount
          rw [f1, k1, hkilled, count_false_append_spawn]
          exact hcount
        · intro _
          rw [t1]
          refine ⟨h0, ?_, ?_⟩
          · rw [← hlen, f1]
            exact hltFE
          · rw [f1]
            exact hgetD

/-- In every reachable state the kill bookkeeping holds. -/
theorem reachable_killInvariant (sqrtf : ℚ → ℚ) (s : State) (hs : Reachable sqrtf s) :
    KillInvariant s := by
  induction hs with
  | start rand => exact startup_killInvariant rand
  | key c x y s s' _ hk ih => exact key_killInvariant c x y s s' hk ih
  | mouse button state x y width height s _ ih =>
    exact mouse_killInvariant button state x y width height s ih
  | motion x y width height s _ ih => exact ih
  | display rand deltaTime s hr _ ih =>
    exact updateAnimations_killInvariant sqrtf rand deltaTime s (reachable_noDeath sqrtf s hr) ih

/-- C21: in every state reachable from startup, the number of mosquitoes in the pool with
`alive = false`, plus one if `isKillingMosquito` is set, equals `killedMosquitoes`; whenever
`isKillingMosquito` is set, `mosquitoToKill` is a valid index of a still-alive mosquito, so
the bounds check at finalisation never takes the no-op branch: on the pool of that moment
(which is at least as long) `markKilled` is the assignment itself, and the finalising frame
raises the number of dead mosquitoes by exactly one, the target being the one marked. -/
theorem kill_counter_invariant (sqrtf : ℚ → ℚ) (s : State) (hs : Reachable sqrtf s) :
    ((deadCount s.mosquitoes : Nat) : Int) + (if s.isKillingMosquito then 1 else 0)
      = s.killedMosquitoes ∧
    (s.isKillingMosquito = true →
      0 ≤ s.mosquitoToKill ∧ s.mosquitoToKill.toNat < s.mosquitoes.length ∧
      (aliveFlags s.mosquitoes).getD s.mosquitoToKill.toNat false = true) ∧
    (s.isKillingMosquito = true →
      ∀ pool : List Mosquito, s.mosquitoes.length ≤ pool.length →
        markKilled s.mosquitoToKill pool = setAlive pool s.mosquitoToKill.toNat false) ∧
    (∀ (rand : Nat → Nat) (deltaTime : ℚ), s.isAnimating = true →
      s.isKillingMosquito = true → s.killEffectTime + deltaTime * 2 > 1 →
      deadCount (updateAnimations sqrtf rand deltaTime s).mosquitoes
        = deadCount s.mosquitoes + 1 ∧
      (aliveFlags (updateAnimations sqrtf rand deltaTime s).mosquitoes).getD
        s.mosquitoToKill.toNat true = false) := by
  have hinv := reachable_killInvariant sqrtf s hs
  have hd := reachable_noDeath sqrtf s hs
  refine ⟨hinv.1, hinv.2, ?_, ?_⟩
  · intro hk pool hpool
    obtain ⟨h0, hlt, _⟩ := hinv.2 hk
    unfold markKilled
    rw [if_pos ⟨h0, lt_of_lt_of_le hlt hpool⟩]
  · intro rand deltaTime ha hk hp
    obtain ⟨h0, hlt, hal⟩ := hinv.2 hk
    have hi : s.mosquitoToKill = ((s.mosquitoToKill.toNat : Nat) : Int) :=
      (Int.toNat_of_nonneg h0).symm
    have hltF : s.mosquitoToKill.toNat < (aliveFlags s.mosquitoes).length := by
      rw [aliveFlags_length]
      exact hlt
    have hgetD : (aliveFlags s.mosquitoes ++ (if spawnDue s then [true] else [])).getD
        s.mosquitoToKill.toNat false = true := by
      rw [List.getD_append _ _ _ _ hltF]
      exact hal
    have hltFE : s.mosquitoToKill.toNat
        < (aliveFlags s.mosquitoes ++ (if spawnDue s then [true] else [])).length := by
      rw [List.length_append]
      omega
    obtain ⟨_, _, _, f1⟩ := tick_kill_final sqrtf rand deltaTime s
      s.mosquitoToKill.toNat ha hk hd hi hlt hp
    constructor
    · unfold deadCount
      rw [f1, count_false_set _ _ hltFE hgetD, count_false_append_spawn]
    · rw [f1, List.getD_eq_getElem _ _ (by simpa using hltFE)]
      simp

/-- Witness for C21: the state reached from startup by the kill key has one kill counted, no
dead mosquito and a kill in flight on the alive mosquito 0; a 0.6 s frame finalises it and
leaves one dead mosquito, the target. -/
theorem kill_counter_invariant_witness :
    (((deadCount killingState.mosquitoes : Nat) : Int)
        + (if killingState.isKillingMosquito then 1 else 0) = killingState.killedMosquitoes) ∧
    (0 ≤ killingState.mosquitoToKill ∧
      killingState.mosquitoToKill.toNat < killingState.mosquitoes.length ∧
      (aliveFlags killingState.mosquitoes).getD killingState.mosquitoToKill.toNat false
        = true) ∧
    (deadCount (updateAnimations sqrtApprox zeroRand 0.6 killingState).mosquitoes
        = deadCount killingState.mosquitoes + 1 ∧
      (aliveFlags (updateAnimations sqrtApprox zeroRand 0.6 killingState).mosquitoes).getD
        killingState.mosquitoToKill.toNat true = false) := by
  have hr : Reachable sqrtApprox killingState :=
    Reachable.key 'd' 0 0 startState killingState (Reachable.start zeroRand) rfl
  have h := kill_counter_invariant sqrtApprox killingState hr
  exact ⟨h.1, h.2.1 rfl,
    h.2.2.2 zeroRand 0.6 rfl rfl (by show (0 : ℚ) + 0.6 * 2 > 1; norm_num)⟩

end Dengue
